import Mathlib

/-!
# Certificate issuance in `cloud/pkg/cloudstream/certutil.go`

A shallow embedding of `SignCloudCoreCert`, `NewPrivateKey` and `NewCertFromCa`.

The three functions are glue around library calls (`crypto/x509`, `crypto/ecdsa`,
`crypto/rsa`, `crypto/rand`, `net`, `time`, `pkg/util`).  Those calls are not part of the
file; their outcomes are collected in an environment `Env`, over which every theorem
quantifies.  Each library call performed is appended to a trace of `Event`s, so that the
order of the calls and the arguments handed to them can be stated.

Conventions:
* a Go `[]byte` result is `Option Bytes`, `none` being the nil slice;
* a Go `error` is `Option String` (its message), `none` being the nil error;
* `fmt.Errorf("... %v", err)` is the format text followed by the message of `err`;
* `int64` arithmetic is on `Int` with an explicit wrap to the signed 64 bit range;
* instants are nanoseconds on `Int`;
* `klog` calls are left out.
-/

namespace Cloudstream

abbrev Bytes := List Nat

/-- The `x509.SignatureAlgorithm` constants. -/
inductive SignatureAlgorithm
  | UnknownSignatureAlgorithm
  | MD2WithRSA
  | MD5WithRSA
  | SHA1WithRSA
  | SHA256WithRSA
  | SHA384WithRSA
  | SHA512WithRSA
  | DSAWithSHA1
  | DSAWithSHA256
  | ECDSAWithSHA1
  | ECDSAWithSHA256
  | ECDSAWithSHA384
  | ECDSAWithSHA512
  | SHA256WithRSAPSS
  | SHA384WithRSAPSS
  | SHA512WithRSAPSS
  | PureEd25519
  deriving DecidableEq, Repr

/-- The `x509.ExtKeyUsage` constants. -/
inductive ExtKeyUsage
  | ExtKeyUsageAny
  | ExtKeyUsageServerAuth
  | ExtKeyUsageClientAuth
  | ExtKeyUsageCodeSigning
  | ExtKeyUsageEmailProtection
  | ExtKeyUsageIPSECEndSystem
  | ExtKeyUsageIPSECTunnel
  | ExtKeyUsageIPSECUser
  | ExtKeyUsageTimeStamping
  | ExtKeyUsageOCSPSigning
  | ExtKeyUsageMicrosoftServerGatedCrypto
  | ExtKeyUsageNetscapeServerGatedCrypto
  | ExtKeyUsageMicrosoftCommercialCodeSigning
  | ExtKeyUsageMicrosoftKernelCodeSigning
  deriving DecidableEq, Repr

/-- The curves of `crypto/elliptic`. -/
inductive Curve
  | P224
  | P256
  | P384
  | P521
  deriving DecidableEq, Repr

/-- An `*ecdsa.PrivateKey`: its curve and its key material. -/
structure ECDSAPrivateKey where
  curve : Curve
  pub : Bytes
  priv : Bytes
  deriving DecidableEq, Repr

/-- An `*rsa.PrivateKey`: its modulus size and its key material. -/
structure RSAPrivateKey where
  bits : Nat
  pub : Bytes
  priv : Bytes
  deriving DecidableEq, Repr

/-- A value of interface type `crypto.Signer`, tagged with its dynamic type. -/
inductive Signer
  | ecdsa (k : ECDSAPrivateKey)
  | rsa (k : RSAPrivateKey)
  deriving DecidableEq, Repr

/-- A value of interface type `crypto.PublicKey`, tagged with its dynamic type. -/
inductive PublicKey
  | ecdsa (c : Curve) (pub : Bytes)
  | rsa (bits : Nat) (pub : Bytes)
  deriving DecidableEq, Repr

/-- The method `Public()` of a `crypto.Signer`. -/
def Signer.Public : Signer → PublicKey
  | .ecdsa k => .ecdsa k.curve k.pub
  | .rsa k => .rsa k.bits k.pub

/-- The type assertion `serverKey.(*ecdsa.PrivateKey)`; `none` is the run-time panic. -/
def Signer.assertECDSA : Signer → Option ECDSAPrivateKey
  | .ecdsa k => some k
  | .rsa _ => none

/-- The type assertion `serverKey.(*rsa.PrivateKey)`; `none` is the run-time panic. -/
def Signer.assertRSA : Signer → Option RSAPrivateKey
  | .rsa k => some k
  | .ecdsa _ => none

/-- A `net.IP`; `none` is the nil value `net.ParseIP` gives for a malformed text. -/
abbrev IP := Option Bytes

/-- The fields of a parsed `*x509.Certificate` the code reads. -/
structure Certificate where
  SignatureAlgorithm : SignatureAlgorithm
  Raw : Bytes
  deriving DecidableEq, Repr

/-- The type `certutil.AltNames` of client-go. -/
structure AltNames where
  DNSNames : List String
  IPs : List IP
  deriving DecidableEq, Repr

/-- The type `certutil.Config` of client-go. -/
structure Config where
  CommonName : String
  Organization : List String
  AltNames : AltNames
  Usages : List ExtKeyUsage
  deriving DecidableEq, Repr

/-- The type `pkix.Name`, with the fields the code sets. -/
structure Name where
  CommonName : String
  Organization : List String
  deriving DecidableEq, Repr

/-- The `x509.Certificate` template built by `NewCertFromCa`, with the fields it sets. -/
structure CertTemplate where
  Subject : Name
  DNSNames : List String
  IPAddresses : List IP
  SerialNumber : Nat
  NotBefore : Int
  NotAfter : Int
  KeyUsage : Nat
  ExtKeyUsage : List ExtKeyUsage
  deriving DecidableEq, Repr

/-- The constant `x509.KeyUsageDigitalSignature` (`1 << 0`). -/
def KeyUsageDigitalSignature : Nat := 1

/-- The constant `x509.KeyUsageKeyEncipherment` (`1 << 2`). -/
def KeyUsageKeyEncipherment : Nat := 4

/-- The constant `math.MaxInt64`. -/
def MaxInt64 : Nat := 9223372036854775807

/-- Reduction of an integer to the `int64` range (two's complement wrap-around). -/
def wrapInt64 (x : Int) : Int := (x + 9223372036854775808) % 18446744073709551616 - 9223372036854775808

/-- Multiplication of two `int64` values, as Go computes it on `time.Duration`. -/
def mulInt64 (a b : Int) : Int := wrapInt64 (a * b)

/-- The constant `time.Hour`, in nanoseconds. -/
def Hour : Int := 3600000000000

/-- The method `Add` of `time.Time`, on instants counted in nanoseconds. -/
def TimeAdd (t d : Int) : Int := t + d

/-- The library calls made by the code, with their arguments, in the order made. -/
inductive Event
  | GetLocalIP (hostname : String)
  | ParseIP (s : String)
  | ParseCertificate (der : Bytes)
  | ecdsaGenerateKey (c : Curve)
  | rsaGenerateKey (bits : Nat)
  | ParseECPrivateKey (der : Bytes)
  | MarshalECPrivateKey (k : ECDSAPrivateKey)
  | ParsePKCS1PrivateKey (der : Bytes)
  | MarshalPKCS1PrivateKey (k : RSAPrivateKey)
  | randRead (n : Nat)
  | timeNow
  | CreateCertificate (tmpl : CertTemplate) (parent : Certificate) (pub : PublicKey) (signer : Signer)
  deriving DecidableEq, Repr

/-- The error with which a byte source ends: the sentinel `io.EOF`, or any other error,
given by its message. -/
inductive SourceError
  | EOF
  | other (msg : String)
  deriving DecidableEq, Repr

/-- The method `Error()` of the error a byte source ends with. -/
def SourceError.Error : SourceError → String
  | .EOF => "EOF"
  | .other msg => msg

/-- The message of `io.ErrUnexpectedEOF`. -/
def ErrUnexpectedEOF : String := "unexpected EOF"

/-- The process-wide `rand.Reader` as seen by `rand.Int`: the bytes it still delivers, and
the error it reports once they are used up.  A source that fails at once has no pending
bytes; a run of `rand.Int` that returns has read finitely many bytes, so every such run is
the run on some `Reader`. -/
structure Reader where
  pending : List Nat
  failure : SourceError
  deriving DecidableEq, Repr

/-- The outcomes of the library calls and the readings of the clock: `now i` is what the
call number `i` of `time.Now()` returns, in nanoseconds; `algorithmString` is the method
`String()` of `x509.SignatureAlgorithm`; `randReader` is what `rand.Reader` delivers to
`rand.Int`.  The other fields carry the names of the library functions they stand for. -/
structure Env where
  GetHostname : String
  GetLocalIP : String → Except String String
  ParseIP : String → IP
  ParseCertificate : Bytes → Except String Certificate
  algorithmString : SignatureAlgorithm → String
  ecdsaGenerateKey : Curve → Except String ECDSAPrivateKey
  rsaGenerateKey : Nat → Except String RSAPrivateKey
  ParseECPrivateKey : Bytes → Except String ECDSAPrivateKey
  MarshalECPrivateKey : ECDSAPrivateKey → Except String Bytes
  ParsePKCS1PrivateKey : Bytes → Except String RSAPrivateKey
  MarshalPKCS1PrivateKey : RSAPrivateKey → Bytes
  randReader : Reader
  now : Nat → Int
  CreateCertificate : CertTemplate → Certificate → PublicKey → Signer → Except String Bytes

/-- How a call ends: it returns, it panics, or its loop never ends. -/
inductive Outcome (α : Type)
  | returned (v : α)
  | panicked (msg : String)
  | diverged
  deriving DecidableEq, Repr

/-- The call `io.ReadFull(rand.Reader, buf)` for a buffer of `k` bytes: the next `k` bytes
when that many are left; otherwise the error of the source, except that `io.EOF` met after
some but not all bytes were read becomes `io.ErrUnexpectedEOF`. -/
def ReadFull (r : Reader) (k : Nat) : Except String (List Nat) × Reader :=
  if k ≤ r.pending.length then
    (.ok ((r.pending.take k).map (fun x => x % 256)), { r with pending := r.pending.drop k })
  else if 0 < r.pending.length ∧ r.failure = SourceError.EOF then
    (.error ErrUnexpectedEOF, { r with pending := [] })
  else
    (.error r.failure.Error, { r with pending := [] })

/-- The error with which reading a source in buffers of `k` bytes ends once every full
buffer has been used: `io.ErrUnexpectedEOF` when the source ends with `io.EOF` in the
middle of a buffer, the error of the source otherwise. -/
def readError (r : Reader) (k : Nat) : String :=
  if 0 < r.pending.length % k ∧ r.failure = SourceError.EOF then ErrUnexpectedEOF
  else r.failure.Error

/-- The method `BitLen` of `big.Int`, for a non-negative value (`fuel` bounds the halvings). -/
def bitLenAux : Nat → Nat → Nat
  | 0, _ => 0
  | fuel + 1, n => if n = 0 then 0 else 1 + bitLenAux fuel (n / 2)

/-- The method `BitLen` of `big.Int`, for a non-negative value. -/
def BitLen (n : Nat) : Nat := bitLenAux n n

/-- The method `SetBytes` of `big.Int`: the big-endian value of a byte sequence. -/
def SetBytes (bs : List Nat) : Nat := bs.foldl (fun acc x => acc * 256 + x) 0

/-- The statement `bytes[0] &= uint8(int(1<<b) - 1)` of `rand.Int`. -/
def maskFirst (b : Nat) : List Nat → List Nat
  | [] => []
  | x :: xs => (x &&& ((2 ^ b - 1) % 256)) :: xs

/-- The sampling loop of `rand.Int`: read `k` bytes, clear the top bits, accept a candidate
below `max`, otherwise read again.  `fuel` bounds the number of rounds.  The second
component lists the reads made. -/
def randIntLoop (max k b : Nat) : Nat → Reader → Outcome (Except String Nat) × List Event
  | 0, _ => (.diverged, [])
  | fuel + 1, r =>
    match ReadFull r k with
    | (.error e, _) => (.returned (.error e), [Event.randRead k])
    | (.ok bytes, r1) =>
      let n := SetBytes (maskFirst b bytes)
      if n < max then (.returned (.ok n), [Event.randRead k])
      else ((randIntLoop max k b fuel r1).1, Event.randRead k :: (randIntLoop max k b fuel r1).2)

/-- The function `rand.Int(rand.Reader, max)` of `crypto/rand`: a value of `[0, max)`.
Every round of its loop uses up bytes of the reader, so one round more than there are
bytes pending is enough. -/
def randInt (r : Reader) (max : Nat) : Outcome (Except String Nat) × List Event :=
  if max = 0 then (.panicked "crypto/rand: argument to Int is <= 0", [])
  else
    let bitLen := BitLen (max - 1)
    if bitLen = 0 then (.returned (.ok 0), [])
    else
      let k := (bitLen + 7) / 8
      let b := if bitLen % 8 = 0 then 8 else bitLen % 8
      randIntLoop max k b (r.pending.length + 1) r

/-- The pair `([]byte, error)` a call of `NewCertFromCa` ends with, and the library calls
made up to then. -/
structure CertResult where
  out : Outcome (Option Bytes × Option String)
  trace : List Event
  deriving DecidableEq, Repr

/-- The composite literal `certTmpl` of `NewCertFromCa`; the clock is read once for
`NotBefore` and once more for `NotAfter`. -/
def certTemplate (env : Env) (cfg : Config) (validalityPeriod : Int) (serial : Nat) : CertTemplate :=
  { Subject := { CommonName := cfg.CommonName, Organization := cfg.Organization }
    DNSNames := cfg.AltNames.DNSNames
    IPAddresses := cfg.AltNames.IPs
    SerialNumber := serial
    NotBefore := env.now 0
    NotAfter := TimeAdd (env.now 1) (mulInt64 (Hour * 24) validalityPeriod)
    KeyUsage := KeyUsageKeyEncipherment ||| KeyUsageDigitalSignature
    ExtKeyUsage := cfg.Usages }

/-- The statements of `NewCertFromCa` that follow the draw of the serial number (the two
checks of the config, the template, the call of `x509.CreateCertificate`). -/
def certFromSerial (env : Env) (cfg : Config) (caCert : Certificate) (serverKey : PublicKey)
    (caKey : Signer) (validalityPeriod : Int) (serial : Nat) (tr1 : List Event) : CertResult :=
  if cfg.CommonName.length = 0 then
    ⟨.returned (none, some "must specify a CommonName"), tr1⟩
  else if cfg.Usages.length = 0 then
    ⟨.returned (none, some "must specify at least one ExtKeyUsage"), tr1⟩
  else
    let certTmpl := certTemplate env cfg validalityPeriod serial
    let tr2 := tr1 ++ [Event.timeNow, Event.timeNow,
      Event.CreateCertificate certTmpl caCert serverKey caKey]
    match env.CreateCertificate certTmpl caCert serverKey caKey with
    | .error e => ⟨.returned (none, some e), tr2⟩
    | .ok certDERBytes => ⟨.returned (some certDERBytes, none), tr2⟩

/-- The function `NewCertFromCa`: the serial number is drawn first, then the statements of
`certFromSerial` follow.  `tr` lists the library calls made before the call. -/
def NewCertFromCa (env : Env) (cfg : Config) (caCert : Certificate) (serverKey : PublicKey)
    (caKey : Signer) (validalityPeriod : Int) (tr : List Event) : CertResult :=
  match randInt env.randReader MaxInt64 with
  | (.diverged, reads) => ⟨.diverged, tr ++ reads⟩
  | (.panicked m, reads) => ⟨.panicked m, tr ++ reads⟩
  | (.returned (.error e), reads) => ⟨.returned (none, some e), tr ++ reads⟩
  | (.returned (.ok serial), reads) =>
    certFromSerial env cfg caCert serverKey caKey validalityPeriod serial (tr ++ reads)

/-- The pair `(crypto.Signer, error)` a call of `NewPrivateKey` ends with, and the library
calls it made. -/
structure KeyResult where
  key : Option Signer
  err : Option String
  trace : List Event
  deriving DecidableEq, Repr

/-- The function `NewPrivateKey`.  When key generation fails the caller only looks at the
error, so the key component is left `none` in that case. -/
def NewPrivateKey (env : Env) (algorithm : SignatureAlgorithm) (tr : List Event) : KeyResult :=
  match algorithm with
  | .ECDSAWithSHA256 =>
    match env.ecdsaGenerateKey Curve.P256 with
    | .ok k => ⟨some (Signer.ecdsa k), none, tr ++ [Event.ecdsaGenerateKey Curve.P256]⟩
    | .error e => ⟨none, some e, tr ++ [Event.ecdsaGenerateKey Curve.P256]⟩
  | .SHA256WithRSA =>
    match env.rsaGenerateKey 2048 with
    | .ok k => ⟨some (Signer.rsa k), none, tr ++ [Event.rsaGenerateKey 2048]⟩
    | .error e => ⟨none, some e, tr ++ [Event.rsaGenerateKey 2048]⟩
  | _ => ⟨none, some ("unsepport signature algorithm: " ++ env.algorithmString algorithm), tr⟩

/-- The triple `([]byte, []byte, error)` a call of `SignCloudCoreCert` ends with, and the
library calls it made. -/
structure SignResult where
  out : Outcome (Option Bytes × Option Bytes × Option String)
  trace : List Event
  deriving DecidableEq, Repr

/-- The last statements of `SignCloudCoreCert` (from the call of `NewCertFromCa` on),
shared by the two branches of its `switch`. -/
def signWith (env : Env) (cfg : Config) (caCert : Certificate) (serverKey caKey : Signer)
    (keyDER : Option Bytes) (tr : List Event) : SignResult :=
  match NewCertFromCa env cfg caCert serverKey.Public caKey (365 * 100) tr with
  | ⟨.diverged, tr1⟩ => ⟨.diverged, tr1⟩
  | ⟨.panicked m, tr1⟩ => ⟨.panicked m, tr1⟩
  | ⟨.returned (_, some e), tr1⟩ =>
    ⟨.returned (none, none, some ("failed to generate a certificate using the given CA certificate and key, err: " ++ e)), tr1⟩
  | ⟨.returned (certDER, none), tr1⟩ => ⟨.returned (certDER, keyDER, none), tr1⟩

/-- The `certutil.Config` literal of `SignCloudCoreCert`; `parsed` is the value of
`net.ParseIP(podIP)`. -/
def cloudCoreConfig (parsed : IP) : Config :=
  { CommonName := "EdgeWize"
    Organization := ["EdgeWize"]
    Usages := [ExtKeyUsage.ExtKeyUsageServerAuth]
    AltNames := { DNSNames := [], IPs := [parsed] } }

/-- The function `SignCloudCoreCert`.  The `switch` on the signature algorithm is reached
with a key and a nil error only; a nil key there would make the type assertions panic. -/
def SignCloudCoreCert (env : Env) (cacrt cakey : Bytes) : SignResult :=
  let tr0 := [Event.GetLocalIP env.GetHostname]
  match env.GetLocalIP env.GetHostname with
  | .error e => ⟨.returned (none, none, some e), tr0⟩
  | .ok podIP =>
    let cfg : Config := cloudCoreConfig (env.ParseIP podIP)
    let tr1 := tr0 ++ [Event.ParseIP podIP, Event.ParseCertificate cacrt]
    match env.ParseCertificate cacrt with
    | .error e =>
      ⟨.returned (none, none, some ("failed to parse a caCert from the given ASN.1 DER data, err: " ++ e)), tr1⟩
    | .ok caCert =>
      match NewPrivateKey env caCert.SignatureAlgorithm tr1 with
      | ⟨_, some e, tr2⟩ =>
        ⟨.returned (none, none, some ("failed to generate a privateKey, err: " ++ e)), tr2⟩
      | ⟨none, none, tr2⟩ =>
        ⟨.panicked "interface conversion: interface is nil", tr2⟩
      | ⟨some serverKey, none, tr2⟩ =>
        match caCert.SignatureAlgorithm with
        | .ECDSAWithSHA256 =>
          let tr3 := tr2 ++ [Event.ParseECPrivateKey cakey]
          match env.ParseECPrivateKey cakey with
          | .error e =>
            ⟨.returned (none, none, some ("failed to parse ECPrivateKey, err: " ++ e)), tr3⟩
          | .ok caKey =>
            match serverKey.assertECDSA with
            | none => ⟨.panicked "interface conversion: crypto.Signer is not *ecdsa.PrivateKey", tr3⟩
            | some k =>
              let tr4 := tr3 ++ [Event.MarshalECPrivateKey k]
              match env.MarshalECPrivateKey k with
              | .error e =>
                ⟨.returned (none, none, some ("failed to convert an EC private key to SEC 1, ASN.1 DER form, err: " ++ e)), tr4⟩
              | .ok keyDER => signWith env cfg caCert serverKey (Signer.ecdsa caKey) (some keyDER) tr4
        | .SHA256WithRSA =>
          let tr3 := tr2 ++ [Event.ParsePKCS1PrivateKey cakey]
          match env.ParsePKCS1PrivateKey cakey with
          | .error e =>
            ⟨.returned (none, none, some ("failed to parse PKCS1PrivateKey, err: " ++ e)), tr3⟩
          | .ok caKey =>
            match serverKey.assertRSA with
            | none => ⟨.panicked "interface conversion: crypto.Signer is not *rsa.PrivateKey", tr3⟩
            | some k =>
              let tr4 := tr3 ++ [Event.MarshalPKCS1PrivateKey k]
              signWith env cfg caCert serverKey (Signer.rsa caKey)
                (some (env.MarshalPKCS1PrivateKey k)) tr4
        | _ =>
          ⟨.returned (none, none, some ("unsupport signature algorithm: " ++ env.algorithmString caCert.SignatureAlgorithm)), tr2⟩

/-- The templates handed to `x509.CreateCertificate` in a trace, in order. -/
def signedTemplates : List Event → List CertTemplate
  | [] => []
  | Event.CreateCertificate tmpl _ _ _ :: rest => tmpl :: signedTemplates rest
  | _ :: rest => signedTemplates rest

/-- Whether an event is a key generation (`ecdsa.GenerateKey` or `rsa.GenerateKey`). -/
def Event.isKeyGeneration : Event → Bool
  | .ecdsaGenerateKey _ => true
  | .rsaGenerateKey _ => true
  | _ => false

/-- Whether an event is a parse of the CA private key. -/
def Event.isCAKeyParse : Event → Bool
  | .ParseECPrivateKey _ => true
  | .ParsePKCS1PrivateKey _ => true
  | _ => false

/-- Whether an event is a call of `x509.CreateCertificate`. -/
def Event.isSigning : Event → Bool
  | .CreateCertificate _ _ _ _ => true
  | _ => false

/-- Whether an event concerns a key: its generation, the parse of the CA key, or the
encoding of the leaf key. -/
def Event.isKeyEvent : Event → Bool
  | .ecdsaGenerateKey _ => true
  | .rsaGenerateKey _ => true
  | .ParseECPrivateKey _ => true
  | .ParsePKCS1PrivateKey _ => true
  | .MarshalECPrivateKey _ => true
  | .MarshalPKCS1PrivateKey _ => true
  | _ => false

/-- The key events of a trace, in order. -/
def keyEvents (tr : List Event) : List Event := tr.filter Event.isKeyEvent

/-- Whether a call returned (it neither panicked nor looped). -/
def Outcome.isReturned {α : Type} : Outcome α → Bool
  | .returned _ => true
  | _ => false

/-- The eight bytes of a value below `2 ^ 64`, most significant first. -/
def bigEndian8 (n : Nat) : List Nat :=
  [n / 72057594037927936 % 256, n / 281474976710656 % 256, n / 1099511627776 % 256,
   n / 4294967296 % 256, n / 16777216 % 256, n / 65536 % 256, n / 256 % 256, n % 256]

/-- An environment in which every library call succeeds, for an ECDSA or RSA signed CA:
the host address is `ip`, the CA certificate has signature algorithm `alg`, the clock reads
`t0` and then `t1`, and `rand.Reader` delivers `rnd`. -/
def sampleEnv (ip : String) (parsed : IP) (alg : SignatureAlgorithm) (rnd : Reader) (t0 t1 : Int) : Env :=
  { GetHostname := "cloudcore"
    GetLocalIP := fun _ => .ok ip
    ParseIP := fun _ => parsed
    ParseCertificate := fun der => .ok ⟨alg, der⟩
    algorithmString := fun a => if a = SignatureAlgorithm.SHA384WithRSA then "SHA384-RSA" else "other"
    ecdsaGenerateKey := fun c => .ok ⟨c, [4, 1], [7]⟩
    rsaGenerateKey := fun bits => .ok ⟨bits, [3, 1], [9]⟩
    ParseECPrivateKey := fun der => .ok ⟨Curve.P256, [4, 2], der⟩
    MarshalECPrivateKey := fun k => .ok (48 :: k.priv)
    ParsePKCS1PrivateKey := fun der => .ok ⟨2048, [3, 2], der⟩
    MarshalPKCS1PrivateKey := fun k => 49 :: k.priv
    randReader := rnd
    now := fun i => if i = 0 then t0 else t1
    CreateCertificate := fun tmpl _ _ _ => .ok [48, tmpl.SerialNumber % 256] }

end Cloudstream

namespace Cloudstream

theorem BitLen_MaxInt64_pred : BitLen (MaxInt64 - 1) = 63 := by decide

theorem randInt_MaxInt64 (r : Reader) :
    randInt r MaxInt64 = randIntLoop MaxInt64 8 7 (r.pending.length + 1) r := by
  have h : BitLen (9223372036854775807 - 1) = 63 := BitLen_MaxInt64_pred
  unfold randInt
  simp only [MaxInt64, h]
  rfl

theorem readError_drop (r : Reader) (k : Nat) (h : k ≤ r.pending.length) :
    readError { r with pending := r.pending.drop k } k = readError r k := by
  have hm : (r.pending.length - k) % k = r.pending.length % k :=
    (Nat.mod_eq_sub_mod h).symm
  simp only [readError, List.length_drop, hm]

theorem randIntLoop_shape (max k b : Nat) (hk : 0 < k) :
    ∀ (fuel : Nat) (r : Reader), r.pending.length < fuel →
      (randIntLoop max k b fuel r).2 ≠ [] ∧
      (∀ ev ∈ (randIntLoop max k b fuel r).2, ev = Event.randRead k) ∧
      ((randIntLoop max k b fuel r).1 = .returned (.error (readError r k)) ∨
       ∃ n, n < max ∧ (randIntLoop max k b fuel r).1 = .returned (.ok n)) := by
  intro fuel
  induction fuel with
  | zero => intro r h; omega
  | succ fuel ih =>
    intro r h
    by_cases hlen : k ≤ r.pending.length
    · by_cases hn : SetBytes (maskFirst b ((r.pending.take k).map (fun x => x % 256))) < max
      · have hstep : randIntLoop max k b (fuel + 1) r =
            (.returned (.ok (SetBytes (maskFirst b ((r.pending.take k).map (fun x => x % 256))))),
              [Event.randRead k]) := by
          simp only [randIntLoop, ReadFull, if_pos hlen, if_pos hn]
        rw [hstep]
        exact ⟨by simp, by simp, Or.inr ⟨_, hn, rfl⟩⟩
      · have hlt : (r.pending.drop k).length < fuel := by
          simp only [List.length_drop]; omega
        obtain ⟨_, hall, hres⟩ := ih { r with pending := r.pending.drop k } hlt
        rw [readError_drop r k hlen] at hres
        have hstep : randIntLoop max k b (fuel + 1) r =
            ((randIntLoop max k b fuel { r with pending := r.pending.drop k }).1,
              Event.randRead k ::
                (randIntLoop max k b fuel { r with pending := r.pending.drop k }).2) := by
          simp only [randIntLoop, ReadFull, if_pos hlen, if_neg hn]
        rw [hstep]
        refine ⟨by simp, ?_, hres⟩
        intro ev hev
        rcases List.mem_cons.mp hev with h1 | h1
        · exact h1
        · exact hall ev h1
    · have hmod : r.pending.length % k = r.pending.length :=
        Nat.mod_eq_of_lt (Nat.lt_of_not_le hlen)
      by_cases hp : 0 < r.pending.length ∧ r.failure = SourceError.EOF
      · have hstep : randIntLoop max k b (fuel + 1) r =
            (.returned (.error ErrUnexpectedEOF), [Event.randRead k]) := by
          simp only [randIntLoop, ReadFull, if_neg hlen, if_pos hp]
        have he : readError r k = ErrUnexpectedEOF := by
          simp only [readError, hmod, if_pos hp]
        rw [hstep, he]
        exact ⟨by simp, by simp, Or.inl rfl⟩
      · have hstep : randIntLoop max k b (fuel + 1) r =
            (.returned (.error r.failure.Error), [Event.randRead k]) := by
          simp only [randIntLoop, ReadFull, if_neg hlen, if_neg hp]
        have he : readError r k = r.failure.Error := by
          simp only [readError, hmod, if_neg hp]
        rw [hstep, he]
        exact ⟨by simp, by simp, Or.inl rfl⟩

theorem randInt_shape (r : Reader) :
    (randInt r MaxInt64).2 ≠ [] ∧
    (∀ ev ∈ (randInt r MaxInt64).2, ev = Event.randRead 8) ∧
    ((randInt r MaxInt64).1 = .returned (.error (readError r 8)) ∨
     ∃ n, n < MaxInt64 ∧ (randInt r MaxInt64).1 = .returned (.ok n)) := by
  rw [randInt_MaxInt64]
  exact randIntLoop_shape MaxInt64 8 7 (by decide) _ r (Nat.lt_succ_self _)

theorem NewCertFromCa_drawError (env : Env) (cfg : Config) (caCert : Certificate)
    (serverKey : PublicKey) (caKey : Signer) (v : Int) (tr : List Event) (e : String)
    (h : (randInt env.randReader MaxInt64).1 = .returned (.error e)) :
    NewCertFromCa env cfg caCert serverKey caKey v tr =
      ⟨.returned (none, some e), tr ++ (randInt env.randReader MaxInt64).2⟩ := by
  unfold NewCertFromCa
  generalize randInt env.randReader MaxInt64 = res at *
  rcases res with ⟨o, reads⟩
  simp only at h
  subst h
  rfl

theorem NewCertFromCa_drawOk (env : Env) (cfg : Config) (caCert : Certificate)
    (serverKey : PublicKey) (caKey : Signer) (v : Int) (tr : List Event) (n : Nat)
    (h : (randInt env.randReader MaxInt64).1 = .returned (.ok n)) :
    NewCertFromCa env cfg caCert serverKey caKey v tr =
      certFromSerial env cfg caCert serverKey caKey v n
        (tr ++ (randInt env.randReader MaxInt64).2) := by
  unfold NewCertFromCa
  generalize randInt env.randReader MaxInt64 = res at *
  rcases res with ⟨o, reads⟩
  simp only at h
  subst h
  rfl

theorem NewPrivateKey_unsupported (env : Env) (alg : SignatureAlgorithm) (tr : List Event)
    (h1 : alg ≠ SignatureAlgorithm.ECDSAWithSHA256) (h2 : alg ≠ SignatureAlgorithm.SHA256WithRSA) :
    NewPrivateKey env alg tr =
      ⟨none, some ("unsepport signature algorithm: " ++ env.algorithmString alg), tr⟩ := by
  cases alg <;> first | rfl | exact absurd rfl h1 | exact absurd rfl h2

theorem SignCloudCoreCert_hostError (env : Env) (cacrt cakey : Bytes) (e : String)
    (h1 : env.GetLocalIP env.GetHostname = .error e) :
    SignCloudCoreCert env cacrt cakey =
      ⟨.returned (none, none, some e), [Event.GetLocalIP env.GetHostname]⟩ := by
  simp [SignCloudCoreCert, h1]

theorem SignCloudCoreCert_certError (env : Env) (cacrt cakey : Bytes) (podIP e : String)
    (h1 : env.GetLocalIP env.GetHostname = .ok podIP)
    (h2 : env.ParseCertificate cacrt = .error e) :
    SignCloudCoreCert env cacrt cakey =
      ⟨.returned (none, none,
          some ("failed to parse a caCert from the given ASN.1 DER data, err: " ++ e)),
        [Event.GetLocalIP env.GetHostname, Event.ParseIP podIP, Event.ParseCertificate cacrt]⟩ := by
  simp [SignCloudCoreCert, h1, h2]

theorem SignCloudCoreCert_unsupported (env : Env) (cacrt cakey : Bytes) (podIP : String)
    (caCert : Certificate)
    (h1 : env.GetLocalIP env.GetHostname = .ok podIP)
    (h2 : env.ParseCertificate cacrt = .ok caCert)
    (h3 : caCert.SignatureAlgorithm ≠ SignatureAlgorithm.ECDSAWithSHA256)
    (h4 : caCert.SignatureAlgorithm ≠ SignatureAlgorithm.SHA256WithRSA) :
    SignCloudCoreCert env cacrt cakey =
      ⟨.returned (none, none,
          some ("failed to generate a privateKey, err: " ++
            ("unsepport signature algorithm: " ++ env.algorithmString caCert.SignatureAlgorithm))),
        [Event.GetLocalIP env.GetHostname, Event.ParseIP podIP, Event.ParseCertificate cacrt]⟩ := by
  simp [SignCloudCoreCert, h1, h2, NewPrivateKey_unsupported env _ _ h3 h4]

theorem SignCloudCoreCert_ecdsaKeyError (env : Env) (cacrt cakey : Bytes) (podIP e : String)
    (caCert : Certificate)
    (h1 : env.GetLocalIP env.GetHostname = .ok podIP)
    (h2 : env.ParseCertificate cacrt = .ok caCert)
    (h3 : caCert.SignatureAlgorithm = SignatureAlgorithm.ECDSAWithSHA256)
    (h4 : env.ecdsaGenerateKey Curve.P256 = .error e) :
    SignCloudCoreCert env cacrt cakey =
      ⟨.returned (none, none, some ("failed to generate a privateKey, err: " ++ e)),
        [Event.GetLocalIP env.GetHostname, Event.ParseIP podIP, Event.ParseCertificate cacrt,
          Event.ecdsaGenerateKey Curve.P256]⟩ := by
  simp [SignCloudCoreCert, h1, h2, h3, NewPrivateKey, h4]

theorem SignCloudCoreCert_rsaKeyError (env : Env) (cacrt cakey : Bytes) (podIP e : String)
    (caCert : Certificate)
    (h1 : env.GetLocalIP env.GetHostname = .ok podIP)
    (h2 : env.ParseCertificate cacrt = .ok caCert)
    (h3 : caCert.SignatureAlgorithm = SignatureAlgorithm.SHA256WithRSA)
    (h4 : env.rsaGenerateKey 2048 = .error e) :
    SignCloudCoreCert env cacrt cakey =
      ⟨.returned (none, none, some ("failed to generate a privateKey, err: " ++ e)),
        [Event.GetLocalIP env.GetHostname, Event.ParseIP podIP, Event.ParseCertificate cacrt,
          Event.rsaGenerateKey 2048]⟩ := by
  simp [SignCloudCoreCert, h1, h2, h3, NewPrivateKey, h4]

theorem SignCloudCoreCert_ecdsaCAKeyError (env : Env) (cacrt cakey : Bytes) (podIP e : String)
    (caCert : Certificate) (sk : ECDSAPrivateKey)
    (h1 : env.GetLocalIP env.GetHostname = .ok podIP)
    (h2 : env.ParseCertificate cacrt = .ok caCert)
    (h3 : caCert.SignatureAlgorithm = SignatureAlgorithm.ECDSAWithSHA256)
    (h4 : env.ecdsaGenerateKey Curve.P256 = .ok sk)
    (h5 : env.ParseECPrivateKey cakey = .error e) :
    SignCloudCoreCert env cacrt cakey =
      ⟨.returned (none, none, some ("failed to parse ECPrivateKey, err: " ++ e)),
        [Event.GetLocalIP env.GetHostname, Event.ParseIP podIP, Event.ParseCertificate cacrt,
          Event.ecdsaGenerateKey Curve.P256, Event.ParseECPrivateKey cakey]⟩ := by
  simp [SignCloudCoreCert, h1, h2, h3, NewPrivateKey, h4, h5]

theorem SignCloudCoreCert_rsaCAKeyError (env : Env) (cacrt cakey : Bytes) (podIP e : String)
    (caCert : Certificate) (sk : RSAPrivateKey)
    (h1 : env.GetLocalIP env.GetHostname = .ok podIP)
    (h2 : env.ParseCertificate cacrt = .ok caCert)
    (h3 : caCert.SignatureAlgorithm = SignatureAlgorithm.SHA256WithRSA)
    (h4 : env.rsaGenerateKey 2048 = .ok sk)
    (h5 : env.ParsePKCS1PrivateKey cakey = .error e) :
    SignCloudCoreCert env cacrt cakey =
      ⟨.returned (none, none, some ("failed to parse PKCS1PrivateKey, err: " ++ e)),
        [Event.GetLocalIP env.GetHostname, Event.ParseIP podIP, Event.ParseCertificate cacrt,
          Event.rsaGenerateKey 2048, Event.ParsePKCS1PrivateKey cakey]⟩ := by
  simp [SignCloudCoreCert, h1, h2, h3, NewPrivateKey, h4, h5]

theorem SignCloudCoreCert_ecdsaEncodeError (env : Env) (cacrt cakey : Bytes) (podIP e : String)
    (caCert : Certificate) (sk ck : ECDSAPrivateKey)
    (h1 : env.GetLocalIP env.GetHostname = .ok podIP)
    (h2 : env.ParseCertificate cacrt = .ok caCert)
    (h3 : caCert.SignatureAlgorithm = SignatureAlgorithm.ECDSAWithSHA256)
    (h4 : env.ecdsaGenerateKey Curve.P256 = .ok sk)
    (h5 : env.ParseECPrivateKey cakey = .ok ck)
    (h6 : env.MarshalECPrivateKey sk = .error e) :
    SignCloudCoreCert env cacrt cakey =
      ⟨.returned (none, none,
          some ("failed to convert an EC private key to SEC 1, ASN.1 DER form, err: " ++ e)),
        [Event.GetLocalIP env.GetHostname, Event.ParseIP podIP, Event.ParseCertificate cacrt,
          Event.ecdsaGenerateKey Curve.P256, Event.ParseECPrivateKey cakey,
          Event.MarshalECPrivateKey sk]⟩ := by
  simp [SignCloudCoreCert, h1, h2, h3, NewPrivateKey, h4, h5, h6, Signer.assertECDSA]

theorem SignCloudCoreCert_ecdsa (env : Env) (cacrt cakey : Bytes) (podIP : String)
    (caCert : Certificate) (sk ck : ECDSAPrivateKey) (keyDER : Bytes)
    (h1 : env.GetLocalIP env.GetHostname = .ok podIP)
    (h2 : env.ParseCertificate cacrt = .ok caCert)
    (h3 : caCert.SignatureAlgorithm = SignatureAlgorithm.ECDSAWithSHA256)
    (h4 : env.ecdsaGenerateKey Curve.P256 = .ok sk)
    (h5 : env.ParseECPrivateKey cakey = .ok ck)
    (h6 : env.MarshalECPrivateKey sk = .ok keyDER) :
    SignCloudCoreCert env cacrt cakey =
      signWith env (cloudCoreConfig (env.ParseIP podIP)) caCert (Signer.ecdsa sk) (Signer.ecdsa ck)
        (some keyDER)
        [Event.GetLocalIP env.GetHostname, Event.ParseIP podIP, Event.ParseCertificate cacrt,
          Event.ecdsaGenerateKey Curve.P256, Event.ParseECPrivateKey cakey,
          Event.MarshalECPrivateKey sk] := by
  simp [SignCloudCoreCert, h1, h2, h3, NewPrivateKey, h4, h5, h6, Signer.assertECDSA]

theorem SignCloudCoreCert_rsa (env : Env) (cacrt cakey : Bytes) (podIP : String)
    (caCert : Certificate) (sk ck : RSAPrivateKey)
    (h1 : env.GetLocalIP env.GetHostname = .ok podIP)
    (h2 : env.ParseCertificate cacrt = .ok caCert)
    (h3 : caCert.SignatureAlgorithm = SignatureAlgorithm.SHA256WithRSA)
    (h4 : env.rsaGenerateKey 2048 = .ok sk)
    (h5 : env.ParsePKCS1PrivateKey cakey = .ok ck) :
    SignCloudCoreCert env cacrt cakey =
      signWith env (cloudCoreConfig (env.ParseIP podIP)) caCert (Signer.rsa sk) (Signer.rsa ck)
        (some (env.MarshalPKCS1PrivateKey sk))
        [Event.GetLocalIP env.GetHostname, Event.ParseIP podIP, Event.ParseCertificate cacrt,
          Event.rsaGenerateKey 2048, Event.ParsePKCS1PrivateKey cakey,
          Event.MarshalPKCS1PrivateKey sk] := by
  simp [SignCloudCoreCert, h1, h2, h3, NewPrivateKey, h4, h5, Signer.assertRSA]

theorem cloudCoreConfig_CommonName (p : IP) : ¬ (cloudCoreConfig p).CommonName.length = 0 := by
  show ¬ ("EdgeWize" : String).length = 0
  decide

theorem cloudCoreConfig_Usages (p : IP) : ¬ (cloudCoreConfig p).Usages.length = 0 := by
  simp [cloudCoreConfig]

theorem certFromSerial_noName (env : Env) (cfg : Config) (caCert : Certificate)
    (serverKey : PublicKey) (caKey : Signer) (v : Int) (n : Nat) (tr : List Event)
    (h1 : cfg.CommonName.length = 0) :
    certFromSerial env cfg caCert serverKey caKey v n tr =
      ⟨.returned (none, some "must specify a CommonName"), tr⟩ := by
  simp only [certFromSerial, if_pos h1]

theorem certFromSerial_noUsages (env : Env) (cfg : Config) (caCert : Certificate)
    (serverKey : PublicKey) (caKey : Signer) (v : Int) (n : Nat) (tr : List Event)
    (h1 : ¬ cfg.CommonName.length = 0) (h2 : cfg.Usages.length = 0) :
    certFromSerial env cfg caCert serverKey caKey v n tr =
      ⟨.returned (none, some "must specify at least one ExtKeyUsage"), tr⟩ := by
  simp only [certFromSerial, if_neg h1, if_pos h2]

theorem certFromSerial_valid (env : Env) (cfg : Config) (caCert : Certificate)
    (serverKey : PublicKey) (caKey : Signer) (v : Int) (n : Nat) (tr : List Event)
    (h1 : ¬ cfg.CommonName.length = 0) (h2 : ¬ cfg.Usages.length = 0) :
    certFromSerial env cfg caCert serverKey caKey v n tr =
      match env.CreateCertificate (certTemplate env cfg v n) caCert serverKey caKey with
      | .error e => ⟨.returned (none, some e), tr ++ [Event.timeNow, Event.timeNow,
          Event.CreateCertificate (certTemplate env cfg v n) caCert serverKey caKey]⟩
      | .ok c => ⟨.returned (some c, none), tr ++ [Event.timeNow, Event.timeNow,
          Event.CreateCertificate (certTemplate env cfg v n) caCert serverKey caKey]⟩ := by
  simp only [certFromSerial, if_neg h1, if_neg h2]

/-- Case analysis on a run of the last statements of `SignCloudCoreCert`: the draw of the
serial number fails, the signing fails, or a certificate is returned. -/
theorem signWith_cases (env : Env) (p : IP) (caCert : Certificate) (serverKey caKey : Signer)
    (keyDER : Option Bytes) (tr : List Event) (P : SignResult → Prop)
    (hDraw : (randInt env.randReader MaxInt64).1 = .returned (.error (readError env.randReader 8)) →
      P ⟨.returned (none, none,
          some ("failed to generate a certificate using the given CA certificate and key, err: " ++
            readError env.randReader 8)), tr ++ (randInt env.randReader MaxInt64).2⟩)
    (hSign : ∀ n e, n < MaxInt64 → (randInt env.randReader MaxInt64).1 = .returned (.ok n) →
      env.CreateCertificate (certTemplate env (cloudCoreConfig p) (365 * 100) n) caCert
        serverKey.Public caKey = .error e →
      P ⟨.returned (none, none,
          some ("failed to generate a certificate using the given CA certificate and key, err: " ++ e)),
        tr ++ (randInt env.randReader MaxInt64).2 ++ [Event.timeNow, Event.timeNow,
          Event.CreateCertificate (certTemplate env (cloudCoreConfig p) (365 * 100) n) caCert
            serverKey.Public caKey]⟩)
    (hOk : ∀ n c, n < MaxInt64 → (randInt env.randReader MaxInt64).1 = .returned (.ok n) →
      env.CreateCertificate (certTemplate env (cloudCoreConfig p) (365 * 100) n) caCert
        serverKey.Public caKey = .ok c →
      P ⟨.returned (some c, keyDER, none),
        tr ++ (randInt env.randReader MaxInt64).2 ++ [Event.timeNow, Event.timeNow,
          Event.CreateCertificate (certTemplate env (cloudCoreConfig p) (365 * 100) n) caCert
            serverKey.Public caKey]⟩) :
    P (signWith env (cloudCoreConfig p) caCert serverKey caKey keyDER tr) := by
  obtain ⟨_, _, h | ⟨n, hn, h⟩⟩ := randInt_shape env.randReader
  · have := hDraw h
    unfold signWith
    rw [NewCertFromCa_drawError _ _ _ _ _ _ _ _ h]
    exact this
  · have hcert := NewCertFromCa_drawOk env (cloudCoreConfig p) caCert serverKey.Public caKey
      (365 * 100) tr n h
    rw [certFromSerial_valid _ _ _ _ _ _ _ _ (cloudCoreConfig_CommonName p)
      (cloudCoreConfig_Usages p)] at hcert
    cases hc : env.CreateCertificate (certTemplate env (cloudCoreConfig p) (365 * 100) n) caCert
        serverKey.Public caKey with
    | error e =>
      have := hSign n e hn h hc
      rw [hc] at hcert
      unfold signWith
      rw [hcert]
      exact this
    | ok c =>
      have := hOk n c hn h hc
      rw [hc] at hcert
      unfold signWith
      rw [hcert]
      exact this

/-- Case analysis on a run of `SignCloudCoreCert`, along the outcomes of the library calls
up to the call of `NewCertFromCa`. -/
theorem SignCloudCoreCert_stages (env : Env) (cacrt cakey : Bytes) (P : SignResult → Prop)
    (hHost : ∀ e, env.GetLocalIP env.GetHostname = .error e →
      P ⟨.returned (none, none, some e), [Event.GetLocalIP env.GetHostname]⟩)
    (hCert : ∀ podIP e, env.GetLocalIP env.GetHostname = .ok podIP →
      env.ParseCertificate cacrt = .error e →
      P ⟨.returned (none, none,
          some ("failed to parse a caCert from the given ASN.1 DER data, err: " ++ e)),
        [Event.GetLocalIP env.GetHostname, Event.ParseIP podIP, Event.ParseCertificate cacrt]⟩)
    (hAlg : ∀ podIP caCert, env.GetLocalIP env.GetHostname = .ok podIP →
      env.ParseCertificate cacrt = .ok caCert →
      caCert.SignatureAlgorithm ≠ SignatureAlgorithm.ECDSAWithSHA256 →
      caCert.SignatureAlgorithm ≠ SignatureAlgorithm.SHA256WithRSA →
      P ⟨.returned (none, none,
          some ("failed to generate a privateKey, err: " ++
            ("unsepport signature algorithm: " ++ env.algorithmString caCert.SignatureAlgorithm))),
        [Event.GetLocalIP env.GetHostname, Event.ParseIP podIP, Event.ParseCertificate cacrt]⟩)
    (hGenEC : ∀ podIP caCert e, env.GetLocalIP env.GetHostname = .ok podIP →
      env.ParseCertificate cacrt = .ok caCert →
      caCert.SignatureAlgorithm = SignatureAlgorithm.ECDSAWithSHA256 →
      env.ecdsaGenerateKey Curve.P256 = .error e →
      P ⟨.returned (none, none, some ("failed to generate a privateKey, err: " ++ e)),
        [Event.GetLocalIP env.GetHostname, Event.ParseIP podIP, Event.ParseCertificate cacrt,
          Event.ecdsaGenerateKey Curve.P256]⟩)
    (hGenRSA : ∀ podIP caCert e, env.GetLocalIP env.GetHostname = .ok podIP →
      env.ParseCertificate cacrt = .ok caCert →
      caCert.SignatureAlgorithm = SignatureAlgorithm.SHA256WithRSA →
      env.rsaGenerateKey 2048 = .error e →
      P ⟨.returned (none, none, some ("failed to generate a privateKey, err: " ++ e)),
        [Event.GetLocalIP env.GetHostname, Event.ParseIP podIP, Event.ParseCertificate cacrt,
          Event.rsaGenerateKey 2048]⟩)
    (hCAKeyEC : ∀ podIP caCert sk e, env.GetLocalIP env.GetHostname = .ok podIP →
      env.ParseCertificate cacrt = .ok caCert →
      caCert.SignatureAlgorithm = SignatureAlgorithm.ECDSAWithSHA256 →
      env.ecdsaGenerateKey Curve.P256 = .ok sk →
      env.ParseECPrivateKey cakey = .error e →
      P ⟨.returned (none, none, some ("failed to parse ECPrivateKey, err: " ++ e)),
        [Event.GetLocalIP env.GetHostname, Event.ParseIP podIP, Event.ParseCertificate cacrt,
          Event.ecdsaGenerateKey Curve.P256, Event.ParseECPrivateKey cakey]⟩)
    (hCAKeyRSA : ∀ podIP caCert sk e, env.GetLocalIP env.GetHostname = .ok podIP →
      env.ParseCertificate cacrt = .ok caCert →
      caCert.SignatureAlgorithm = SignatureAlgorithm.SHA256WithRSA →
      env.rsaGenerateKey 2048 = .ok sk →
      env.ParsePKCS1PrivateKey cakey = .error e →
      P ⟨.returned (none, none, some ("failed to parse PKCS1PrivateKey, err: " ++ e)),
        [Event.GetLocalIP env.GetHostname, Event.ParseIP podIP, Event.ParseCertificate cacrt,
          Event.rsaGenerateKey 2048, Event.ParsePKCS1PrivateKey cakey]⟩)
    (hEncEC : ∀ podIP caCert sk ck e, env.GetLocalIP env.GetHostname = .ok podIP →
      env.ParseCertificate cacrt = .ok caCert →
      caCert.SignatureAlgorithm = SignatureAlgorithm.ECDSAWithSHA256 →
      env.ecdsaGenerateKey Curve.P256 = .ok sk →
      env.ParseECPrivateKey cakey = .ok ck →
      env.MarshalECPrivateKey sk = .error e →
      P ⟨.returned (none, none,
          some ("failed to convert an EC private key to SEC 1, ASN.1 DER form, err: " ++ e)),
        [Event.GetLocalIP env.GetHostname, Event.ParseIP podIP, Event.ParseCertificate cacrt,
          Event.ecdsaGenerateKey Curve.P256, Event.ParseECPrivateKey cakey,
          Event.MarshalECPrivateKey sk]⟩)
    (hEC : ∀ podIP caCert sk ck keyDER, env.GetLocalIP env.GetHostname = .ok podIP →
      env.ParseCertificate cacrt = .ok caCert →
      caCert.SignatureAlgorithm = SignatureAlgorithm.ECDSAWithSHA256 →
      env.ecdsaGenerateKey Curve.P256 = .ok sk →
      env.ParseECPrivateKey cakey = .ok ck →
      env.MarshalECPrivateKey sk = .ok keyDER →
      P (signWith env (cloudCoreConfig (env.ParseIP podIP)) caCert (Signer.ecdsa sk)
        (Signer.ecdsa ck) (some keyDER)
        [Event.GetLocalIP env.GetHostname, Event.ParseIP podIP, Event.ParseCertificate cacrt,
          Event.ecdsaGenerateKey Curve.P256, Event.ParseECPrivateKey cakey,
          Event.MarshalECPrivateKey sk]))
    (hRSA : ∀ podIP caCert sk ck, env.GetLocalIP env.GetHostname = .ok podIP →
      env.ParseCertificate cacrt = .ok caCert →
      caCert.SignatureAlgorithm = SignatureAlgorithm.SHA256WithRSA →
      env.rsaGenerateKey 2048 = .ok sk →
      env.ParsePKCS1PrivateKey cakey = .ok ck →
      P (signWith env (cloudCoreConfig (env.ParseIP podIP)) caCert (Signer.rsa sk)
        (Signer.rsa ck) (some (env.MarshalPKCS1PrivateKey sk))
        [Event.GetLocalIP env.GetHostname, Event.ParseIP podIP, Event.ParseCertificate cacrt,
          Event.rsaGenerateKey 2048, Event.ParsePKCS1PrivateKey cakey,
          Event.MarshalPKCS1PrivateKey sk])) :
    P (SignCloudCoreCert env cacrt cakey) := by
  cases h1 : env.GetLocalIP env.GetHostname with
  | error e => rw [SignCloudCoreCert_hostError env cacrt cakey e h1]; exact hHost e h1
  | ok podIP =>
    cases h2 : env.ParseCertificate cacrt with
    | error e =>
      rw [SignCloudCoreCert_certError env cacrt cakey podIP e h1 h2]; exact hCert podIP e h1 h2
    | ok caCert =>
      by_cases h3 : caCert.SignatureAlgorithm = SignatureAlgorithm.ECDSAWithSHA256
      · cases h4 : env.ecdsaGenerateKey Curve.P256 with
        | error e =>
          rw [SignCloudCoreCert_ecdsaKeyError env cacrt cakey podIP e caCert h1 h2 h3 h4]
          exact hGenEC podIP caCert e h1 h2 h3 h4
        | ok sk =>
          cases h5 : env.ParseECPrivateKey cakey with
          | error e =>
            rw [SignCloudCoreCert_ecdsaCAKeyError env cacrt cakey podIP e caCert sk h1 h2 h3 h4 h5]
            exact hCAKeyEC podIP caCert sk e h1 h2 h3 h4 h5
          | ok ck =>
            cases h6 : env.MarshalECPrivateKey sk with
            | error e =>
              rw [SignCloudCoreCert_ecdsaEncodeError env cacrt cakey podIP e caCert sk ck
                h1 h2 h3 h4 h5 h6]
              exact hEncEC podIP caCert sk ck e h1 h2 h3 h4 h5 h6
            | ok keyDER =>
              rw [SignCloudCoreCert_ecdsa env cacrt cakey podIP caCert sk ck keyDER
                h1 h2 h3 h4 h5 h6]
              exact hEC podIP caCert sk ck keyDER h1 h2 h3 h4 h5 h6
      · by_cases h3r : caCert.SignatureAlgorithm = SignatureAlgorithm.SHA256WithRSA
        · cases h4 : env.rsaGenerateKey 2048 with
          | error e =>
            rw [SignCloudCoreCert_rsaKeyError env cacrt cakey podIP e caCert h1 h2 h3r h4]
            exact hGenRSA podIP caCert e h1 h2 h3r h4
          | ok sk =>
            cases h5 : env.ParsePKCS1PrivateKey cakey with
            | error e =>
              rw [SignCloudCoreCert_rsaCAKeyError env cacrt cakey podIP e caCert sk h1 h2 h3r h4 h5]
              exact hCAKeyRSA podIP caCert sk e h1 h2 h3r h4 h5
            | ok ck =>
              rw [SignCloudCoreCert_rsa env cacrt cakey podIP caCert sk ck h1 h2 h3r h4 h5]
              exact hRSA podIP caCert sk ck h1 h2 h3r h4 h5
        · rw [SignCloudCoreCert_unsupported env cacrt cakey podIP caCert h1 h2 h3 h3r]
          exact hAlg podIP caCert h1 h2 h3 h3r

/-- Case analysis on a run of `SignCloudCoreCert`: one case for each way the run can end,
with the outcomes of the library calls that lead there, the triple returned and the trace. -/
theorem SignCloudCoreCert_cases (env : Env) (cacrt cakey : Bytes) (P : SignResult → Prop)
    (hHost : ∀ e, env.GetLocalIP env.GetHostname = .error e →
      P ⟨.returned (none, none, some e), [Event.GetLocalIP env.GetHostname]⟩)
    (hCert : ∀ podIP e, env.GetLocalIP env.GetHostname = .ok podIP →
      env.ParseCertificate cacrt = .error e →
      P ⟨.returned (none, none,
          some ("failed to parse a caCert from the given ASN.1 DER data, err: " ++ e)),
        [Event.GetLocalIP env.GetHostname, Event.ParseIP podIP, Event.ParseCertificate cacrt]⟩)
    (hAlg : ∀ podIP caCert, env.GetLocalIP env.GetHostname = .ok podIP →
      env.ParseCertificate cacrt = .ok caCert →
      caCert.SignatureAlgorithm ≠ SignatureAlgorithm.ECDSAWithSHA256 →
      caCert.SignatureAlgorithm ≠ SignatureAlgorithm.SHA256WithRSA →
      P ⟨.returned (none, none,
          some ("failed to generate a privateKey, err: " ++
            ("unsepport signature algorithm: " ++ env.algorithmString caCert.SignatureAlgorithm))),
        [Event.GetLocalIP env.GetHostname, Event.ParseIP podIP, Event.ParseCertificate cacrt]⟩)
    (hGenEC : ∀ podIP caCert e, env.GetLocalIP env.GetHostname = .ok podIP →
      env.ParseCertificate cacrt = .ok caCert →
      caCert.SignatureAlgorithm = SignatureAlgorithm.ECDSAWithSHA256 →
      env.ecdsaGenerateKey Curve.P256 = .error e →
      P ⟨.returned (none, none, some ("failed to generate a privateKey, err: " ++ e)),
        [Event.GetLocalIP env.GetHostname, Event.ParseIP podIP, Event.ParseCertificate cacrt,
          Event.ecdsaGenerateKey Curve.P256]⟩)
    (hGenRSA : ∀ podIP caCert e, env.GetLocalIP env.GetHostname = .ok podIP →
      env.ParseCertificate cacrt = .ok caCert →
      caCert.SignatureAlgorithm = SignatureAlgorithm.SHA256WithRSA →
      env.rsaGenerateKey 2048 = .error e →
      P ⟨.returned (none, none, some ("failed to generate a privateKey, err: " ++ e)),
        [Event.GetLocalIP env.GetHostname, Event.ParseIP podIP, Event.ParseCertificate cacrt,
          Event.rsaGenerateKey 2048]⟩)
    (hCAKeyEC : ∀ podIP caCert sk e, env.GetLocalIP env.GetHostname = .ok podIP →
      env.ParseCertificate cacrt = .ok caCert →
      caCert.SignatureAlgorithm = SignatureAlgorithm.ECDSAWithSHA256 →
      env.ecdsaGenerateKey Curve.P256 = .ok sk →
      env.ParseECPrivateKey cakey = .error e →
      P ⟨.returned (none, none, some ("failed to parse ECPrivateKey, err: " ++ e)),
        [Event.GetLocalIP env.GetHostname, Event.ParseIP podIP, Event.ParseCertificate cacrt,
          Event.ecdsaGenerateKey Curve.P256, Event.ParseECPrivateKey cakey]⟩)
    (hCAKeyRSA : ∀ podIP caCert sk e, env.GetLocalIP env.GetHostname = .ok podIP →
      env.ParseCertificate cacrt = .ok caCert →
      caCert.SignatureAlgorithm = SignatureAlgorithm.SHA256WithRSA →
      env.rsaGenerateKey 2048 = .ok sk →
      env.ParsePKCS1PrivateKey cakey = .error e →
      P ⟨.returned (none, none, some ("failed to parse PKCS1PrivateKey, err: " ++ e)),
        [Event.GetLocalIP env.GetHostname, Event.ParseIP podIP, Event.ParseCertificate cacrt,
          Event.rsaGenerateKey 2048, Event.ParsePKCS1PrivateKey cakey]⟩)
    (hEncEC : ∀ podIP caCert sk ck e, env.GetLocalIP env.GetHostname = .ok podIP →
      env.ParseCertificate cacrt = .ok caCert →
      caCert.SignatureAlgorithm = SignatureAlgorithm.ECDSAWithSHA256 →
      env.ecdsaGenerateKey Curve.P256 = .ok sk →
      env.ParseECPrivateKey cakey = .ok ck →
      env.MarshalECPrivateKey sk = .error e →
      P ⟨.returned (none, none,
          some ("failed to convert an EC private key to SEC 1, ASN.1 DER form, err: " ++ e)),
        [Event.GetLocalIP env.GetHostname, Event.ParseIP podIP, Event.ParseCertificate cacrt,
          Event.ecdsaGenerateKey Curve.P256, Event.ParseECPrivateKey cakey,
          Event.MarshalECPrivateKey sk]⟩)
    (hDrawEC : ∀ podIP caCert sk ck keyDER, env.GetLocalIP env.GetHostname = .ok podIP →
      env.ParseCertificate cacrt = .ok caCert →
      caCert.SignatureAlgorithm = SignatureAlgorithm.ECDSAWithSHA256 →
      env.ecdsaGenerateKey Curve.P256 = .ok sk →
      env.ParseECPrivateKey cakey = .ok ck →
      env.MarshalECPrivateKey sk = .ok keyDER →
      (randInt env.randReader MaxInt64).1 = .returned (.error (readError env.randReader 8)) →
      P ⟨.returned (none, none, some ("failed to generate a certificate using the given CA certificate and key, err: " ++
          readError env.randReader 8)),
        [Event.GetLocalIP env.GetHostname, Event.ParseIP podIP, Event.ParseCertificate cacrt,
          Event.ecdsaGenerateKey Curve.P256, Event.ParseECPrivateKey cakey,
          Event.MarshalECPrivateKey sk] ++ (randInt env.randReader MaxInt64).2⟩)
    (hSignEC : ∀ podIP caCert sk ck keyDER n e, env.GetLocalIP env.GetHostname = .ok podIP →
      env.ParseCertificate cacrt = .ok caCert →
      caCert.SignatureAlgorithm = SignatureAlgorithm.ECDSAWithSHA256 →
      env.ecdsaGenerateKey Curve.P256 = .ok sk →
      env.ParseECPrivateKey cakey = .ok ck →
      env.MarshalECPrivateKey sk = .ok keyDER →
      n < MaxInt64 → (randInt env.randReader MaxInt64).1 = .returned (.ok n) →
      env.CreateCertificate (certTemplate env (cloudCoreConfig (env.ParseIP podIP)) (365 * 100) n)
        caCert (Signer.ecdsa sk).Public (Signer.ecdsa ck) = .error e →
      P ⟨.returned (none, none, some ("failed to generate a certificate using the given CA certificate and key, err: " ++ e)),
        [Event.GetLocalIP env.GetHostname, Event.ParseIP podIP, Event.ParseCertificate cacrt,
          Event.ecdsaGenerateKey Curve.P256, Event.ParseECPrivateKey cakey,
          Event.MarshalECPrivateKey sk] ++ (randInt env.randReader MaxInt64).2 ++ [Event.timeNow, Event.timeNow,
          Event.CreateCertificate (certTemplate env (cloudCoreConfig (env.ParseIP podIP)) (365 * 100) n)
            caCert (Signer.ecdsa sk).Public (Signer.ecdsa ck)]⟩)
    (hOkEC : ∀ podIP caCert sk ck keyDER n c, env.GetLocalIP env.GetHostname = .ok podIP →
      env.ParseCertificate cacrt = .ok caCert →
      caCert.SignatureAlgorithm = SignatureAlgorithm.ECDSAWithSHA256 →
      env.ecdsaGenerateKey Curve.P256 = .ok sk →
      env.ParseECPrivateKey cakey = .ok ck →
      env.MarshalECPrivateKey sk = .ok keyDER →
      n < MaxInt64 → (randInt env.randReader MaxInt64).1 = .returned (.ok n) →
      env.CreateCertificate (certTemplate env (cloudCoreConfig (env.ParseIP podIP)) (365 * 100) n)
        caCert (Signer.ecdsa sk).Public (Signer.ecdsa ck) = .ok c →
      P ⟨.returned (some c, some keyDER, none),
        [Event.GetLocalIP env.GetHostname, Event.ParseIP podIP, Event.ParseCertificate cacrt,
          Event.ecdsaGenerateKey Curve.P256, Event.ParseECPrivateKey cakey,
          Event.MarshalECPrivateKey sk] ++ (randInt env.randReader MaxInt64).2 ++ [Event.timeNow, Event.timeNow,
          Event.CreateCertificate (certTemplate env (cloudCoreConfig (env.ParseIP podIP)) (365 * 100) n)
            caCert (Signer.ecdsa sk).Public (Signer.ecdsa ck)]⟩)
    (hDrawRSA : ∀ podIP caCert sk ck, env.GetLocalIP env.GetHostname = .ok podIP →
      env.ParseCertificate cacrt = .ok caCert →
      caCert.SignatureAlgorithm = SignatureAlgorithm.SHA256WithRSA →
      env.rsaGenerateKey 2048 = .ok sk →
      env.ParsePKCS1PrivateKey cakey = .ok ck →
      (randInt env.randReader MaxInt64).1 = .returned (.error (readError env.randReader 8)) →
      P ⟨.returned (none, none, some ("failed to generate a certificate using the given CA certificate and key, err: " ++
          readError env.randReader 8)),
        [Event.GetLocalIP env.GetHostname, Event.ParseIP podIP, Event.ParseCertificate cacrt,
          Event.rsaGenerateKey 2048, Event.ParsePKCS1PrivateKey cakey,
          Event.MarshalPKCS1PrivateKey sk] ++ (randInt env.randReader MaxInt64).2⟩)
    (hSignRSA : ∀ podIP caCert sk ck n e, env.GetLocalIP env.GetHostname = .ok podIP →
      env.ParseCertificate cacrt = .ok caCert →
      caCert.SignatureAlgorithm = SignatureAlgorithm.SHA256WithRSA →
      env.rsaGenerateKey 2048 = .ok sk →
      env.ParsePKCS1PrivateKey cakey = .ok ck →
      n < MaxInt64 → (randInt env.randReader MaxInt64).1 = .returned (.ok n) →
      env.CreateCertificate (certTemplate env (cloudCoreConfig (env.ParseIP podIP)) (365 * 100) n)
        caCert (Signer.rsa sk).Public (Signer.rsa ck) = .error e →
      P ⟨.returned (none, none, some ("failed to generate a certificate using the given CA certificate and key, err: " ++ e)),
        [Event.GetLocalIP env.GetHostname, Event.ParseIP podIP, Event.ParseCertificate cacrt,
          Event.rsaGenerateKey 2048, Event.ParsePKCS1PrivateKey cakey,
          Event.MarshalPKCS1PrivateKey sk] ++ (randInt env.randReader MaxInt64).2 ++ [Event.timeNow, Event.timeNow,
          Event.CreateCertificate (certTemplate env (cloudCoreConfig (env.ParseIP podIP)) (365 * 100) n)
            caCert (Signer.rsa sk).Public (Signer.rsa ck)]⟩)
    (hOkRSA : ∀ podIP caCert sk ck n c, env.GetLocalIP env.GetHostname = .ok podIP →
      env.ParseCertificate cacrt = .ok caCert →
      caCert.SignatureAlgorithm = SignatureAlgorithm.SHA256WithRSA →
      env.rsaGenerateKey 2048 = .ok sk →
      env.ParsePKCS1PrivateKey cakey = .ok ck →
      n < MaxInt64 → (randInt env.randReader MaxInt64).1 = .returned (.ok n) →
      env.CreateCertificate (certTemplate env (cloudCoreConfig (env.ParseIP podIP)) (365 * 100) n)
        caCert (Signer.rsa sk).Public (Signer.rsa ck) = .ok c →
      P ⟨.returned (some c, some (env.MarshalPKCS1PrivateKey sk), none),
        [Event.GetLocalIP env.GetHostname, Event.ParseIP podIP, Event.ParseCertificate cacrt,
          Event.rsaGenerateKey 2048, Event.ParsePKCS1PrivateKey cakey,
          Event.MarshalPKCS1PrivateKey sk] ++ (randInt env.randReader MaxInt64).2 ++ [Event.timeNow, Event.timeNow,
          Event.CreateCertificate (certTemplate env (cloudCoreConfig (env.ParseIP podIP)) (365 * 100) n)
            caCert (Signer.rsa sk).Public (Signer.rsa ck)]⟩) :
    P (SignCloudCoreCert env cacrt cakey) := by
  refine SignCloudCoreCert_stages env cacrt cakey P hHost hCert hAlg hGenEC hGenRSA hCAKeyEC
    hCAKeyRSA hEncEC ?_ ?_
  · intro podIP caCert sk ck keyDER h1 h2 h3 h4 h5 h6
    exact signWith_cases env _ caCert _ _ _ _ P
      (hDrawEC podIP caCert sk ck keyDER h1 h2 h3 h4 h5 h6)
      (fun n e => hSignEC podIP caCert sk ck keyDER n e h1 h2 h3 h4 h5 h6)
      (fun n c => hOkEC podIP caCert sk ck keyDER n c h1 h2 h3 h4 h5 h6)
  · intro podIP caCert sk ck h1 h2 h3 h4 h5
    exact signWith_cases env _ caCert _ _ _ _ P
      (hDrawRSA podIP caCert sk ck h1 h2 h3 h4 h5)
      (fun n e => hSignRSA podIP caCert sk ck n e h1 h2 h3 h4 h5)
      (fun n c => hOkRSA podIP caCert sk ck n c h1 h2 h3 h4 h5)

/-- C1: `SignCloudCoreCert` is all-or-nothing.  For every pair of inputs and every outcome
of the library calls it returns (it neither panics nor loops), and what it returns is either
`(nil, nil, err)` with a non-nil error, or `(certDER, keyDER, nil)` where `certDER` is what
a call of `x509.CreateCertificate` made in the run gave and `keyDER` is what a call of
`x509.MarshalECPrivateKey` or `x509.MarshalPKCS1PrivateKey` made in the run gave. -/
theorem SignCloudCoreCert_all_or_nothing (env : Env) (cacrt cakey : Bytes) :
    (∃ err, (SignCloudCoreCert env cacrt cakey).out = .returned (none, none, some err)) ∨
    (∃ certDER keyDER,
      (SignCloudCoreCert env cacrt cakey).out = .returned (some certDER, some keyDER, none) ∧
      (∃ tmpl parent pub signer,
        Event.CreateCertificate tmpl parent pub signer ∈ (SignCloudCoreCert env cacrt cakey).trace ∧
        env.CreateCertificate tmpl parent pub signer = .ok certDER) ∧
      ((∃ k, Event.MarshalECPrivateKey k ∈ (SignCloudCoreCert env cacrt cakey).trace ∧
          env.MarshalECPrivateKey k = .ok keyDER) ∨
       (∃ k, Event.MarshalPKCS1PrivateKey k ∈ (SignCloudCoreCert env cacrt cakey).trace ∧
          env.MarshalPKCS1PrivateKey k = keyDER))) := by
  refine SignCloudCoreCert_cases env cacrt cakey
    (fun res => (∃ err, res.out = .returned (none, none, some err)) ∨
      (∃ certDER keyDER, res.out = .returned (some certDER, some keyDER, none) ∧
        (∃ tmpl parent pub signer, Event.CreateCertificate tmpl parent pub signer ∈ res.trace ∧
          env.CreateCertificate tmpl parent pub signer = .ok certDER) ∧
        ((∃ k, Event.MarshalECPrivateKey k ∈ res.trace ∧ env.MarshalECPrivateKey k = .ok keyDER) ∨
         (∃ k, Event.MarshalPKCS1PrivateKey k ∈ res.trace ∧
            env.MarshalPKCS1PrivateKey k = keyDER))))
    ?_ ?_ ?_ ?_ ?_ ?_ ?_ ?_ ?_ ?_ ?_ ?_ ?_ ?_
  · intro e _; exact Or.inl ⟨_, rfl⟩
  · intro podIP e _ _; exact Or.inl ⟨_, rfl⟩
  · intro podIP caCert _ _ _ _; exact Or.inl ⟨_, rfl⟩
  · intro podIP caCert e _ _ _ _; exact Or.inl ⟨_, rfl⟩
  · intro podIP caCert e _ _ _ _; exact Or.inl ⟨_, rfl⟩
  · intro podIP caCert sk e _ _ _ _ _; exact Or.inl ⟨_, rfl⟩
  · intro podIP caCert sk e _ _ _ _ _; exact Or.inl ⟨_, rfl⟩
  · intro podIP caCert sk ck e _ _ _ _ _ _; exact Or.inl ⟨_, rfl⟩
  · intro podIP caCert sk ck keyDER _ _ _ _ _ _ _; exact Or.inl ⟨_, rfl⟩
  · intro podIP caCert sk ck keyDER n e _ _ _ _ _ _ _ _ _; exact Or.inl ⟨_, rfl⟩
  · intro podIP caCert sk ck keyDER n c _ _ _ _ _ h6 _ _ hc
    exact Or.inr ⟨c, keyDER, rfl, ⟨_, _, _, _, by simp, hc⟩, Or.inl ⟨sk, by simp, h6⟩⟩
  · intro podIP caCert sk ck _ _ _ _ _ _; exact Or.inl ⟨_, rfl⟩
  · intro podIP caCert sk ck n e _ _ _ _ _ _ _ _; exact Or.inl ⟨_, rfl⟩
  · intro podIP caCert sk ck n c _ _ _ _ _ _ _ hc
    exact Or.inr ⟨c, _, rfl, ⟨_, _, _, _, by simp, hc⟩, Or.inr ⟨sk, by simp, rfl⟩⟩

/-- C2: when the host address is found and the CA certificate parses with a signature
algorithm other than `ECDSAWithSHA256` and `SHA256WithRSA`, `SignCloudCoreCert` returns
`(nil, nil, err)`, the message of `err` being that of the unsupported-algorithm error of
`NewPrivateKey` (it ends with `SignatureAlgorithm.String()`) behind the text added by
`SignCloudCoreCert`; the run consists of the host lookup, the parse of the address and the
parse of the CA certificate: no key is generated, no CA key is parsed, nothing is signed. -/
theorem SignCloudCoreCert_unsupported_algorithm (env : Env) (cacrt cakey : Bytes)
    (podIP : String) (caCert : Certificate)
    (h1 : env.GetLocalIP env.GetHostname = .ok podIP)
    (h2 : env.ParseCertificate cacrt = .ok caCert)
    (h3 : caCert.SignatureAlgorithm ≠ SignatureAlgorithm.ECDSAWithSHA256)
    (h4 : caCert.SignatureAlgorithm ≠ SignatureAlgorithm.SHA256WithRSA) :
    (SignCloudCoreCert env cacrt cakey).out =
      .returned (none, none, some ("failed to generate a privateKey, err: " ++
        ("unsepport signature algorithm: " ++ env.algorithmString caCert.SignatureAlgorithm))) ∧
    (SignCloudCoreCert env cacrt cakey).trace =
      [Event.GetLocalIP env.GetHostname, Event.ParseIP podIP, Event.ParseCertificate cacrt] ∧
    (SignCloudCoreCert env cacrt cakey).trace.all
      (fun ev => !ev.isKeyGeneration && !ev.isCAKeyParse && !ev.isSigning) = true := by
  rw [SignCloudCoreCert_unsupported env cacrt cakey podIP caCert h1 h2 h3 h4]
  exact ⟨rfl, rfl, rfl⟩

theorem SignCloudCoreCert_unsupported_algorithm_witness :
    (SignCloudCoreCert (sampleEnv "10.0.0.5" (some [10, 0, 0, 5]) SignatureAlgorithm.SHA384WithRSA
        ⟨[], SourceError.EOF⟩ 0 0) [1] [2]).out =
      .returned (none, none,
        some "failed to generate a privateKey, err: unsepport signature algorithm: SHA384-RSA") :=
  (SignCloudCoreCert_unsupported_algorithm
    (sampleEnv "10.0.0.5" (some [10, 0, 0, 5]) SignatureAlgorithm.SHA384WithRSA ⟨[], SourceError.EOF⟩ 0 0)
    [1] [2] "10.0.0.5" ⟨SignatureAlgorithm.SHA384WithRSA, [1]⟩ rfl rfl (by decide) (by decide)).1

/-- C3, as stated, fails: with a random source that reports an error, a config whose
`CommonName` is empty does not get the missing-common-name error but the error of the random
source, and likewise a config with a `CommonName` and no `Usages`; in both runs the random
source has been read. -/
theorem NewCertFromCa_checks_before_draw_counterexample :
    NewCertFromCa
        (sampleEnv "10.0.0.5" (some [10, 0, 0, 5]) SignatureAlgorithm.ECDSAWithSHA256
          ⟨[], SourceError.other "entropy source failed"⟩ 0 0)
        { CommonName := "", Organization := [], AltNames := ⟨[], []⟩, Usages := [] }
        ⟨SignatureAlgorithm.ECDSAWithSHA256, [1]⟩ (PublicKey.ecdsa Curve.P256 [4, 1])
        (Signer.ecdsa ⟨Curve.P256, [4, 2], [2]⟩) 36500 [] =
      ⟨.returned (none, some "entropy source failed"), [Event.randRead 8]⟩ ∧
    NewCertFromCa
        (sampleEnv "10.0.0.5" (some [10, 0, 0, 5]) SignatureAlgorithm.ECDSAWithSHA256
          ⟨[], SourceError.other "entropy source failed"⟩ 0 0)
        { CommonName := "EdgeWize", Organization := [], AltNames := ⟨[], []⟩, Usages := [] }
        ⟨SignatureAlgorithm.ECDSAWithSHA256, [1]⟩ (PublicKey.ecdsa Curve.P256 [4, 1])
        (Signer.ecdsa ⟨Curve.P256, [4, 2], [2]⟩) 36500 [] =
      ⟨.returned (none, some "entropy source failed"), [Event.randRead 8]⟩ ∧
    ("entropy source failed" ≠ "must specify a CommonName" ∧
      "entropy source failed" ≠ "must specify at least one ExtKeyUsage") := by
  refine ⟨by rfl, by rfl, by decide, by decide⟩

/-- C3, amended: `NewCertFromCa` draws the serial number before it checks its config.  For a
config with an empty `CommonName` or an empty `Usages` list the run consists of reads of
the random source only (at least one; no clock reading, no signing); if the random source
ends with an error before a serial number is drawn, the error of `io.ReadFull` is returned
(`io.ErrUnexpectedEOF` when the source ends with `io.EOF` in the middle of an eight-byte
buffer, the error of the source otherwise), and if the source delivers a serial number, the
missing-common-name error is returned for an empty `CommonName`, the missing-key-usage
error otherwise. -/
theorem NewCertFromCa_checks_after_draw (env : Env) (cfg : Config) (caCert : Certificate)
    (serverKey : PublicKey) (caKey : Signer) (v : Int) (tr : List Event)
    (hcfg : cfg.CommonName.length = 0 ∨ cfg.Usages.length = 0) :
    (NewCertFromCa env cfg caCert serverKey caKey v tr).trace =
      tr ++ (randInt env.randReader MaxInt64).2 ∧
    (randInt env.randReader MaxInt64).2 ≠ [] ∧
    (randInt env.randReader MaxInt64).2.all (fun ev => ev == Event.randRead 8) = true ∧
    (((randInt env.randReader MaxInt64).1 = .returned (.error (readError env.randReader 8)) ∧
        (NewCertFromCa env cfg caCert serverKey caKey v tr).out =
          .returned (none, some (readError env.randReader 8))) ∨
     (∃ n, (randInt env.randReader MaxInt64).1 = .returned (.ok n) ∧
        (NewCertFromCa env cfg caCert serverKey caKey v tr).out =
          .returned (none, some (if cfg.CommonName.length = 0 then "must specify a CommonName"
            else "must specify at least one ExtKeyUsage")))) := by
  obtain ⟨hne, hall, h | ⟨n, _, h⟩⟩ := randInt_shape env.randReader
  · rw [NewCertFromCa_drawError _ _ _ _ _ _ _ _ h]
    refine ⟨rfl, hne, ?_, Or.inl ⟨h, rfl⟩⟩
    simpa [List.all_eq_true] using hall
  · rw [NewCertFromCa_drawOk _ _ _ _ _ _ _ _ h]
    have hall2 : (randInt env.randReader MaxInt64).2.all (fun ev => ev == Event.randRead 8) = true := by
      simpa [List.all_eq_true] using hall
    by_cases hcn : cfg.CommonName.length = 0
    · rw [certFromSerial_noName _ _ _ _ _ _ _ _ hcn, if_pos hcn]
      exact ⟨rfl, hne, hall2, Or.inr ⟨n, h, rfl⟩⟩
    · have hu : cfg.Usages.length = 0 := hcfg.resolve_left hcn
      rw [certFromSerial_noUsages _ _ _ _ _ _ _ _ hcn hu, if_neg hcn]
      exact ⟨rfl, hne, hall2, Or.inr ⟨n, h, rfl⟩⟩

theorem NewCertFromCa_checks_after_draw_witness :
    (NewCertFromCa
        (sampleEnv "10.0.0.5" (some [10, 0, 0, 5]) SignatureAlgorithm.ECDSAWithSHA256
          ⟨bigEndian8 5, SourceError.EOF⟩ 0 0)
        { CommonName := "", Organization := [], AltNames := ⟨[], []⟩,
          Usages := [ExtKeyUsage.ExtKeyUsageServerAuth] }
        ⟨SignatureAlgorithm.ECDSAWithSHA256, [1]⟩ (PublicKey.ecdsa Curve.P256 [4, 1])
        (Signer.ecdsa ⟨Curve.P256, [4, 2], [2]⟩) 36500 []).out =
      .returned (none, some "must specify a CommonName") ∧
    (NewCertFromCa
        (sampleEnv "10.0.0.5" (some [10, 0, 0, 5]) SignatureAlgorithm.ECDSAWithSHA256
          ⟨bigEndian8 5, SourceError.EOF⟩ 0 0)
        { CommonName := "", Organization := [], AltNames := ⟨[], []⟩,
          Usages := [ExtKeyUsage.ExtKeyUsageServerAuth] }
        ⟨SignatureAlgorithm.ECDSAWithSHA256, [1]⟩ (PublicKey.ecdsa Curve.P256 [4, 1])
        (Signer.ecdsa ⟨Curve.P256, [4, 2], [2]⟩) 36500 []).trace =
      [] ++ (randInt (sampleEnv "10.0.0.5" (some [10, 0, 0, 5])
        SignatureAlgorithm.ECDSAWithSHA256 ⟨bigEndian8 5, SourceError.EOF⟩ 0 0).randReader
        MaxInt64).2 ∧
    NewCertFromCa
        (sampleEnv "10.0.0.5" (some [10, 0, 0, 5]) SignatureAlgorithm.ECDSAWithSHA256
          ⟨[1, 2, 3], SourceError.EOF⟩ 0 0)
        { CommonName := "", Organization := [], AltNames := ⟨[], []⟩,
          Usages := [ExtKeyUsage.ExtKeyUsageServerAuth] }
        ⟨SignatureAlgorithm.ECDSAWithSHA256, [1]⟩ (PublicKey.ecdsa Curve.P256 [4, 1])
        (Signer.ecdsa ⟨Curve.P256, [4, 2], [2]⟩) 36500 [] =
      ⟨.returned (none, some "unexpected EOF"), [Event.randRead 8]⟩ :=
  ⟨by rfl,
   (NewCertFromCa_checks_after_draw
      (sampleEnv "10.0.0.5" (some [10, 0, 0, 5]) SignatureAlgorithm.ECDSAWithSHA256
        ⟨bigEndian8 5, SourceError.EOF⟩ 0 0)
      { CommonName := "", Organization := [], AltNames := ⟨[], []⟩,
        Usages := [ExtKeyUsage.ExtKeyUsageServerAuth] }
      ⟨SignatureAlgorithm.ECDSAWithSHA256, [1]⟩ (PublicKey.ecdsa Curve.P256 [4, 1])
      (Signer.ecdsa ⟨Curve.P256, [4, 2], [2]⟩) 36500 [] (Or.inl (by decide))).1,
   by rfl⟩

/-- C4, as stated, fails: with an ECDSA signed CA certificate, CA key bytes that do not
parse as SEC1 and a failing `ecdsa.GenerateKey`, `SignCloudCoreCert` returns the
key-generation error, not the CA-key-parse error; the CA key is not parsed in that run. -/
theorem SignCloudCoreCert_caKey_before_leafKey_counterexample :
    SignCloudCoreCert
        { sampleEnv "10.0.0.5" (some [10, 0, 0, 5]) SignatureAlgorithm.ECDSAWithSHA256
            ⟨bigEndian8 5, SourceError.EOF⟩ 0 0 with
          ecdsaGenerateKey := fun _ => .error "entropy source failed"
          ParseECPrivateKey := fun _ => .error "x509: failed to parse EC private key" }
        [1] [2] =
      ⟨.returned (none, none, some "failed to generate a privateKey, err: entropy source failed"),
        [Event.GetLocalIP "cloudcore", Event.ParseIP "10.0.0.5", Event.ParseCertificate [1],
          Event.ecdsaGenerateKey Curve.P256]⟩ ∧
    "failed to generate a privateKey, err: entropy source failed" ≠
      "failed to parse ECPrivateKey, err: x509: failed to parse EC private key" := by
  refine ⟨by rfl, by decide⟩

/-- C4, amended: when the host address is found, the CA certificate parses with signature
algorithm `ECDSAWithSHA256` or `SHA256WithRSA`, the leaf key is generated, and the CA key
bytes do not parse in the format of that algorithm (SEC1 for ECDSA, PKCS#1 for RSA),
`SignCloudCoreCert` returns `(nil, nil, err)` with `err` the CA-key-parse error; in that run
the leaf key is generated first and the CA key is parsed after it. -/
theorem SignCloudCoreCert_caKey_parse_error (env : Env) (cacrt cakey : Bytes)
    (podIP : String) (caCert : Certificate)
    (h1 : env.GetLocalIP env.GetHostname = .ok podIP)
    (h2 : env.ParseCertificate cacrt = .ok caCert)
    (h3 : (caCert.SignatureAlgorithm = SignatureAlgorithm.ECDSAWithSHA256 ∧
            (∃ sk, env.ecdsaGenerateKey Curve.P256 = .ok sk) ∧
            ∃ e, env.ParseECPrivateKey cakey = .error e) ∨
          (caCert.SignatureAlgorithm = SignatureAlgorithm.SHA256WithRSA ∧
            (∃ sk, env.rsaGenerateKey 2048 = .ok sk) ∧
            ∃ e, env.ParsePKCS1PrivateKey cakey = .error e)) :
    ∃ e,
      (caCert.SignatureAlgorithm = SignatureAlgorithm.ECDSAWithSHA256 ∧
        env.ParseECPrivateKey cakey = .error e ∧
        SignCloudCoreCert env cacrt cakey =
          ⟨.returned (none, none, some ("failed to parse ECPrivateKey, err: " ++ e)),
            [Event.GetLocalIP env.GetHostname, Event.ParseIP podIP, Event.ParseCertificate cacrt,
              Event.ecdsaGenerateKey Curve.P256, Event.ParseECPrivateKey cakey]⟩) ∨
      (caCert.SignatureAlgorithm = SignatureAlgorithm.SHA256WithRSA ∧
        env.ParsePKCS1PrivateKey cakey = .error e ∧
        SignCloudCoreCert env cacrt cakey =
          ⟨.returned (none, none, some ("failed to parse PKCS1PrivateKey, err: " ++ e)),
            [Event.GetLocalIP env.GetHostname, Event.ParseIP podIP, Event.ParseCertificate cacrt,
              Event.rsaGenerateKey 2048, Event.ParsePKCS1PrivateKey cakey]⟩) := by
  rcases h3 with ⟨ha, ⟨sk, hg⟩, e, hp⟩ | ⟨ha, ⟨sk, hg⟩, e, hp⟩
  · exact ⟨e, Or.inl ⟨ha, hp,
      SignCloudCoreCert_ecdsaCAKeyError env cacrt cakey podIP e caCert sk h1 h2 ha hg hp⟩⟩
  · exact ⟨e, Or.inr ⟨ha, hp,
      SignCloudCoreCert_rsaCAKeyError env cacrt cakey podIP e caCert sk h1 h2 ha hg hp⟩⟩

theorem SignCloudCoreCert_caKey_parse_error_witness :
    SignCloudCoreCert
        { sampleEnv "10.0.0.5" (some [10, 0, 0, 5]) SignatureAlgorithm.SHA256WithRSA
            ⟨bigEndian8 5, SourceError.EOF⟩ 0 0 with
          ParseECPrivateKey := fun _ => .error "asn1: syntax error"
          ParsePKCS1PrivateKey := fun _ => .error "asn1: structure error" }
        [1] [2] =
      ⟨.returned (none, none,
          some ("failed to parse PKCS1PrivateKey, err: " ++ "asn1: structure error")),
        [Event.GetLocalIP "cloudcore", Event.ParseIP "10.0.0.5", Event.ParseCertificate [1],
          Event.rsaGenerateKey 2048, Event.ParsePKCS1PrivateKey [2]]⟩ := by
  rcases SignCloudCoreCert_caKey_parse_error
    { sampleEnv "10.0.0.5" (some [10, 0, 0, 5]) SignatureAlgorithm.SHA256WithRSA
        ⟨bigEndian8 5, SourceError.EOF⟩ 0 0 with
      ParseECPrivateKey := fun _ => .error "asn1: syntax error"
      ParsePKCS1PrivateKey := fun _ => .error "asn1: structure error" }
    [1] [2] "10.0.0.5" ⟨SignatureAlgorithm.SHA256WithRSA, [1]⟩ rfl rfl
    (Or.inr ⟨rfl, ⟨_, rfl⟩, _, rfl⟩) with ⟨e, ⟨h, _, _⟩ | ⟨_, he, hres⟩⟩
  · exact absurd h (by decide)
  · cases he
    exact hres

theorem signedTemplates_append (a b : List Event) :
    signedTemplates (a ++ b) = signedTemplates a ++ signedTemplates b := by
  induction a with
  | nil => rfl
  | cons ev rest ih => cases ev <;> simp [signedTemplates, ih]

theorem signedTemplates_reads (k : Nat) (reads : List Event)
    (h : ∀ ev ∈ reads, ev = Event.randRead k) : signedTemplates reads = [] := by
  induction reads with
  | nil => rfl
  | cons ev rest ih =>
    have h1 : ev = Event.randRead k := h ev (List.mem_cons_self _ _)
    subst h1
    simpa [signedTemplates] using ih (fun e he => h e (List.mem_cons_of_mem _ he))

theorem signedTemplates_randInt (r : Reader) : signedTemplates (randInt r MaxInt64).2 = [] :=
  signedTemplates_reads 8 _ (randInt_shape r).2.1

theorem keyEvents_append (a b : List Event) : keyEvents (a ++ b) = keyEvents a ++ keyEvents b := by
  simp [keyEvents]

theorem keyEvents_reads (k : Nat) (reads : List Event)
    (h : ∀ ev ∈ reads, ev = Event.randRead k) : keyEvents reads = [] := by
  unfold keyEvents
  rw [List.filter_eq_nil_iff]
  intro ev hev
  rw [h ev hev]
  simp [Event.isKeyEvent]

theorem keyEvents_randInt (r : Reader) : keyEvents (randInt r MaxInt64).2 = [] :=
  keyEvents_reads 8 _ (randInt_shape r).2.1

theorem land_127 (x : Nat) : x &&& 127 = x % 128 := by
  have h := Nat.and_pow_two_sub_one_eq_mod x 7
  norm_num at h
  exact h

theorem SetBytes_bigEndian8 (n : Nat) (hn : n < MaxInt64) :
    SetBytes (maskFirst 7 ((bigEndian8 n).map (fun x => x % 256))) = n := by
  have hm : (2 ^ 7 - 1) % 256 = 127 := by norm_num
  have e2 : n / 65536 = n / 256 / 256 := by simp only [Nat.div_div_eq_div_mul]
  have e3 : n / 16777216 = n / 256 / 256 / 256 := by simp only [Nat.div_div_eq_div_mul]
  have e4 : n / 4294967296 = n / 256 / 256 / 256 / 256 := by
    simp only [Nat.div_div_eq_div_mul]
  have e5 : n / 1099511627776 = n / 256 / 256 / 256 / 256 / 256 := by
    simp only [Nat.div_div_eq_div_mul]
  have e6 : n / 281474976710656 = n / 256 / 256 / 256 / 256 / 256 / 256 := by
    simp only [Nat.div_div_eq_div_mul]
  have e7 : n / 72057594037927936 = n / 256 / 256 / 256 / 256 / 256 / 256 / 256 := by
    simp only [Nat.div_div_eq_div_mul]
  simp only [bigEndian8, List.map, maskFirst, SetBytes, List.foldl]
  rw [hm, land_127, e2, e3, e4, e5, e6, e7]
  unfold MaxInt64 at hn
  omega

theorem randInt_bigEndian8 (n : Nat) (hn : n < MaxInt64) (e : SourceError) :
    randInt ⟨bigEndian8 n, e⟩ MaxInt64 = (.returned (.ok n), [Event.randRead 8]) := by
  rw [randInt_MaxInt64]
  have hlen : 8 ≤ (bigEndian8 n).length := by simp [bigEndian8]
  have hs := SetBytes_bigEndian8 n hn
  have htake : (bigEndian8 n).take 8 = bigEndian8 n := by simp [bigEndian8]
  show randIntLoop MaxInt64 8 7 ((bigEndian8 n).length + 1) ⟨bigEndian8 n, e⟩ = _
  simp only [randIntLoop, ReadFull, if_pos hlen, htake, hs, if_pos hn]

/-- The templates a run of `SignCloudCoreCert` hands to `x509.CreateCertificate`: none, and
then the run ends with an error; or exactly one, built from the config literal and the
serial number drawn. -/
theorem SignCloudCoreCert_templates (env : Env) (cacrt cakey : Bytes) :
    (signedTemplates (SignCloudCoreCert env cacrt cakey).trace = [] ∧
      ∃ e, (SignCloudCoreCert env cacrt cakey).out = .returned (none, none, some e)) ∨
    (∃ podIP n, env.GetLocalIP env.GetHostname = .ok podIP ∧ n < MaxInt64 ∧
      (randInt env.randReader MaxInt64).1 = .returned (.ok n) ∧
      signedTemplates (SignCloudCoreCert env cacrt cakey).trace =
        [certTemplate env (cloudCoreConfig (env.ParseIP podIP)) (365 * 100) n]) := by
  refine SignCloudCoreCert_cases env cacrt cakey
    (fun res => (signedTemplates res.trace = [] ∧ ∃ e, res.out = .returned (none, none, some e)) ∨
      (∃ podIP n, env.GetLocalIP env.GetHostname = .ok podIP ∧ n < MaxInt64 ∧
        (randInt env.randReader MaxInt64).1 = .returned (.ok n) ∧
        signedTemplates res.trace =
          [certTemplate env (cloudCoreConfig (env.ParseIP podIP)) (365 * 100) n]))
    ?_ ?_ ?_ ?_ ?_ ?_ ?_ ?_ ?_ ?_ ?_ ?_ ?_ ?_
  · intro e _; exact Or.inl ⟨rfl, _, rfl⟩
  · intro podIP e _ _; exact Or.inl ⟨rfl, _, rfl⟩
  · intro podIP caCert _ _ _ _; exact Or.inl ⟨rfl, _, rfl⟩
  · intro podIP caCert e _ _ _ _; exact Or.inl ⟨rfl, _, rfl⟩
  · intro podIP caCert e _ _ _ _; exact Or.inl ⟨rfl, _, rfl⟩
  · intro podIP caCert sk e _ _ _ _ _; exact Or.inl ⟨rfl, _, rfl⟩
  · intro podIP caCert sk e _ _ _ _ _; exact Or.inl ⟨rfl, _, rfl⟩
  · intro podIP caCert sk ck e _ _ _ _ _ _; exact Or.inl ⟨rfl, _, rfl⟩
  · intro podIP caCert sk ck keyDER _ _ _ _ _ _ _
    exact Or.inl ⟨by simp [signedTemplates_append, signedTemplates_randInt, signedTemplates],
      _, rfl⟩
  · intro podIP caCert sk ck keyDER n e h1 _ _ _ _ _ hn hd _
    exact Or.inr ⟨podIP, n, h1, hn, hd,
      by simp [signedTemplates_append, signedTemplates_randInt, signedTemplates]⟩
  · intro podIP caCert sk ck keyDER n c h1 _ _ _ _ _ hn hd _
    exact Or.inr ⟨podIP, n, h1, hn, hd,
      by simp [signedTemplates_append, signedTemplates_randInt, signedTemplates]⟩
  · intro podIP caCert sk ck _ _ _ _ _ _
    exact Or.inl ⟨by simp [signedTemplates_append, signedTemplates_randInt, signedTemplates],
      _, rfl⟩
  · intro podIP caCert sk ck n e h1 _ _ _ _ hn hd _
    exact Or.inr ⟨podIP, n, h1, hn, hd,
      by simp [signedTemplates_append, signedTemplates_randInt, signedTemplates]⟩
  · intro podIP caCert sk ck n c h1 _ _ _ _ hn hd _
    exact Or.inr ⟨podIP, n, h1, hn, hd,
      by simp [signedTemplates_append, signedTemplates_randInt, signedTemplates]⟩

theorem validity_36500 : mulInt64 (Hour * 24) (365 * 100) = 3153600000000000000 := by
  decide

/-- C5, as stated, fails: `NewCertFromCa` reads the clock twice.  With a clock that reads
100 ns and then 105 ns, the template of the default issuance call has `NotBefore` 100 and
`NotAfter` 105 plus 36,500 days, which is not `NotBefore` plus 36,500 days. -/
theorem two_clock_readings_counterexample :
    (signedTemplates (SignCloudCoreCert
        (sampleEnv "10.0.0.5" (some [10, 0, 0, 5]) SignatureAlgorithm.ECDSAWithSHA256
          ⟨bigEndian8 5, SourceError.EOF⟩ 100 105) [1] [2]).trace).map
      (fun t => (t.NotBefore, t.NotAfter)) = [(100, 3153600000000000105)] ∧
    (3153600000000000105 : Int) ≠ 100 + 3153600000000000000 := by
  refine ⟨by rfl, by decide⟩

/-- C5, amended: in the certificate template built by the default issuance call, `NotBefore`
is the first reading of the clock and `NotAfter` is the second reading plus exactly 36,500
days (3,153,600,000,000,000,000 ns); so `NotAfter` is `NotBefore` plus 36,500 days plus the
time between the two readings.  A run of `SignCloudCoreCert` builds no template (and ends
with an error) or exactly one. -/
theorem SignCloudCoreCert_validity (env : Env) (cacrt cakey : Bytes) :
    (signedTemplates (SignCloudCoreCert env cacrt cakey).trace = [] ∧
      ∃ e, (SignCloudCoreCert env cacrt cakey).out = .returned (none, none, some e)) ∨
    (∃ tmpl, signedTemplates (SignCloudCoreCert env cacrt cakey).trace = [tmpl] ∧
      tmpl.NotBefore = env.now 0 ∧
      tmpl.NotAfter = env.now 1 + 3153600000000000000 ∧
      tmpl.NotAfter = tmpl.NotBefore + 3153600000000000000 + (env.now 1 - env.now 0)) := by
  rcases SignCloudCoreCert_templates env cacrt cakey with h | ⟨podIP, n, _, _, _, h⟩
  · exact Or.inl h
  · refine Or.inr ⟨_, h, rfl, ?_, ?_⟩
    · show TimeAdd (env.now 1) (mulInt64 (Hour * 24) (365 * 100)) = _
      rw [validity_36500]; rfl
    · show TimeAdd (env.now 1) (mulInt64 (Hour * 24) (365 * 100)) =
        env.now 0 + 3153600000000000000 + (env.now 1 - env.now 0)
      rw [validity_36500]; unfold TimeAdd; omega

/-- The templates a run of `NewCertFromCa` hands to `x509.CreateCertificate`: none, or
exactly one, carrying the serial number drawn. -/
theorem NewCertFromCa_templates (env : Env) (cfg : Config) (caCert : Certificate)
    (serverKey : PublicKey) (caKey : Signer) (v : Int) :
    signedTemplates (NewCertFromCa env cfg caCert serverKey caKey v []).trace = [] ∨
    (∃ s, s < MaxInt64 ∧ (randInt env.randReader MaxInt64).1 = .returned (.ok s) ∧
      ¬ cfg.CommonName.length = 0 ∧ ¬ cfg.Usages.length = 0 ∧
      (NewCertFromCa env cfg caCert serverKey caKey v []).trace =
        (randInt env.randReader MaxInt64).2 ++ [Event.timeNow, Event.timeNow,
          Event.CreateCertificate (certTemplate env cfg v s) caCert serverKey caKey] ∧
      signedTemplates (NewCertFromCa env cfg caCert serverKey caKey v []).trace =
        [certTemplate env cfg v s]) := by
  obtain ⟨_, _, h | ⟨s, hs, h⟩⟩ := randInt_shape env.randReader
  · rw [NewCertFromCa_drawError _ _ _ _ _ _ _ _ h]
    exact Or.inl (by simp [signedTemplates_randInt])
  · rw [NewCertFromCa_drawOk _ _ _ _ _ _ _ _ h]
    by_cases hcn : cfg.CommonName.length = 0
    · rw [certFromSerial_noName _ _ _ _ _ _ _ _ hcn]
      exact Or.inl (by simp [signedTemplates_randInt])
    · by_cases hu : cfg.Usages.length = 0
      · rw [certFromSerial_noUsages _ _ _ _ _ _ _ _ hcn hu]
        exact Or.inl (by simp [signedTemplates_randInt])
      · rw [certFromSerial_valid _ _ _ _ _ _ _ _ hcn hu]
        cases env.CreateCertificate (certTemplate env cfg v s) caCert serverKey caKey with
        | error e =>
          exact Or.inr ⟨s, hs, h, hcn, hu, by simp,
            by simp [signedTemplates_append, signedTemplates_randInt, signedTemplates]⟩
        | ok c =>
          exact Or.inr ⟨s, hs, h, hcn, hu, by simp,
            by simp [signedTemplates_append, signedTemplates_randInt, signedTemplates]⟩

/-- C6, as stated, fails at `n = 2^63 - 1`: no random source, config, clock or signer makes
`NewCertFromCa` put the serial number 9223372036854775807 in a template.  A random source
that delivers the eight bytes of that number (`7f ff ff ff ff ff ff ff`) has them rejected:
`rand.Int` reads again, and here meets the end of the source. -/
theorem NewCertFromCa_serial_counterexample :
    (¬ ∃ (env : Env) (cfg : Config) (caCert : Certificate) (serverKey : PublicKey)
        (caKey : Signer) (v : Int) (tmpl : CertTemplate),
        tmpl ∈ signedTemplates (NewCertFromCa env cfg caCert serverKey caKey v []).trace ∧
        tmpl.SerialNumber = 9223372036854775807) ∧
    NewCertFromCa
        (sampleEnv "10.0.0.5" (some [10, 0, 0, 5]) SignatureAlgorithm.ECDSAWithSHA256
          ⟨[127, 255, 255, 255, 255, 255, 255, 255], SourceError.EOF⟩ 0 0)
        (cloudCoreConfig (some [10, 0, 0, 5]))
        ⟨SignatureAlgorithm.ECDSAWithSHA256, [1]⟩ (PublicKey.ecdsa Curve.P256 [4, 1])
        (Signer.ecdsa ⟨Curve.P256, [4, 2], [2]⟩) 36500 [] =
      ⟨.returned (none, some "EOF"), [Event.randRead 8, Event.randRead 8]⟩ := by
  refine ⟨?_, by rfl⟩
  rintro ⟨env, cfg, caCert, serverKey, caKey, v, tmpl, hmem, hser⟩
  rcases NewCertFromCa_templates env cfg caCert serverKey caKey v with h | ⟨s, hs, _, _, _, _, h⟩
  · rw [h] at hmem; simp at hmem
  · rw [h] at hmem
    have : tmpl = certTemplate env cfg v s := by simpa using hmem
    subst this
    have hs2 : s = 9223372036854775807 := hser
    unfold MaxInt64 at hs
    omega

/-- C6, amended: the serial number `NewCertFromCa` puts in the template is drawn from
exactly the integers of `[0, 2^63 - 1)`.  For a config that passes the two checks: if the
random source ends with an error before a serial number is drawn, `NewCertFromCa` returns
the error of `io.ReadFull` (`io.ErrUnexpectedEOF` when the source ends with `io.EOF` in the
middle of an eight-byte buffer, the error of the source otherwise), no certificate, and
builds no template; otherwise the serial number `s` of the one template satisfies
`s < 2^63 - 1`; and every `n < 2^63 - 1` is the serial number for the random source that
delivers the eight bytes of `n`. -/
theorem NewCertFromCa_serial_range (env : Env) (cfg : Config) (caCert : Certificate)
    (serverKey : PublicKey) (caKey : Signer) (v : Int) (n : Nat) (e : SourceError)
    (hn : n < 9223372036854775807)
    (hcn : ¬ cfg.CommonName.length = 0) (hu : ¬ cfg.Usages.length = 0) :
    (((randInt env.randReader MaxInt64).1 = .returned (.error (readError env.randReader 8)) ∧
        (NewCertFromCa env cfg caCert serverKey caKey v []).out =
          .returned (none, some (readError env.randReader 8)) ∧
        signedTemplates (NewCertFromCa env cfg caCert serverKey caKey v []).trace = []) ∨
     (∃ s, s < 9223372036854775807 ∧
        (randInt env.randReader MaxInt64).1 = .returned (.ok s) ∧
        (signedTemplates (NewCertFromCa env cfg caCert serverKey caKey v []).trace).map
          CertTemplate.SerialNumber = [s])) ∧
    (signedTemplates (NewCertFromCa { env with randReader := ⟨bigEndian8 n, e⟩ } cfg caCert
        serverKey caKey v []).trace).map CertTemplate.SerialNumber = [n] := by
  constructor
  · obtain ⟨_, _, h | ⟨s, hs, h⟩⟩ := randInt_shape env.randReader
    · refine Or.inl ⟨h, ?_, ?_⟩
      · rw [NewCertFromCa_drawError _ _ _ _ _ _ _ _ h]
      · rw [NewCertFromCa_drawError _ _ _ _ _ _ _ _ h]
        simp [signedTemplates_randInt]
    · rcases NewCertFromCa_templates env cfg caCert serverKey caKey v with
        h0 | ⟨s2, _, h2, _, _, _, ht⟩
      · exfalso
        rw [NewCertFromCa_drawOk _ _ _ _ _ _ _ _ h,
          certFromSerial_valid _ _ _ _ _ _ _ _ hcn hu] at h0
        cases hc : env.CreateCertificate (certTemplate env cfg v s) caCert serverKey caKey <;>
          rw [hc] at h0 <;>
          simp [signedTemplates_append, signedTemplates_randInt, signedTemplates] at h0
      · rw [h] at h2
        cases h2
        exact Or.inr ⟨s, hs, h, by rw [ht]; rfl⟩
  · have hd : (randInt ({ env with randReader := ⟨bigEndian8 n, e⟩ } : Env).randReader
        MaxInt64).1 = .returned (.ok n) := by
      show (randInt ⟨bigEndian8 n, e⟩ MaxInt64).1 = _
      rw [randInt_bigEndian8 n hn e]
    rcases NewCertFromCa_templates { env with randReader := ⟨bigEndian8 n, e⟩ } cfg caCert
        serverKey caKey v with h0 | ⟨s2, _, h2, _, _, _, ht⟩
    · exfalso
      rw [NewCertFromCa_drawOk _ _ _ _ _ _ _ _ hd,
        certFromSerial_valid _ _ _ _ _ _ _ _ hcn hu] at h0
      revert h0
      split <;>
        simp [signedTemplates_append, signedTemplates_randInt, signedTemplates]
    · rw [hd] at h2
      cases h2
      rw [ht]; rfl

theorem NewCertFromCa_serial_range_witness :
    (signedTemplates (NewCertFromCa
        { sampleEnv "10.0.0.5" (some [10, 0, 0, 5]) SignatureAlgorithm.ECDSAWithSHA256
            ⟨[1, 2, 3], SourceError.EOF⟩ 0 0 with
          randReader := ⟨bigEndian8 9223372036854775806, SourceError.EOF⟩ }
        (cloudCoreConfig (some [10, 0, 0, 5]))
        ⟨SignatureAlgorithm.ECDSAWithSHA256, [1]⟩ (PublicKey.ecdsa Curve.P256 [4, 1])
        (Signer.ecdsa ⟨Curve.P256, [4, 2], [2]⟩) 36500 []).trace).map
      CertTemplate.SerialNumber = [9223372036854775806] ∧
    NewCertFromCa
        (sampleEnv "10.0.0.5" (some [10, 0, 0, 5]) SignatureAlgorithm.ECDSAWithSHA256
          ⟨[1, 2, 3], SourceError.EOF⟩ 0 0)
        (cloudCoreConfig (some [10, 0, 0, 5]))
        ⟨SignatureAlgorithm.ECDSAWithSHA256, [1]⟩ (PublicKey.ecdsa Curve.P256 [4, 1])
        (Signer.ecdsa ⟨Curve.P256, [4, 2], [2]⟩) 36500 [] =
      ⟨.returned (none, some "unexpected EOF"), [Event.randRead 8]⟩ :=
  ⟨(NewCertFromCa_serial_range
      (sampleEnv "10.0.0.5" (some [10, 0, 0, 5]) SignatureAlgorithm.ECDSAWithSHA256
        ⟨[1, 2, 3], SourceError.EOF⟩ 0 0)
      (cloudCoreConfig (some [10, 0, 0, 5]))
      ⟨SignatureAlgorithm.ECDSAWithSHA256, [1]⟩ (PublicKey.ecdsa Curve.P256 [4, 1])
      (Signer.ecdsa ⟨Curve.P256, [4, 2], [2]⟩) 36500 9223372036854775806 SourceError.EOF
      (by decide) (by decide) (by decide)).2,
   by rfl⟩

/-- C7: for a config with a non-empty `CommonName` and non-empty `Usages`, and a random
source that delivers a serial number, `NewCertFromCa` hands exactly one template to the
signer, with `Subject.CommonName`, `Subject.Organization`, `DNSNames`, `IPAddresses` and
`ExtKeyUsage` taken unchanged from the config and `KeyUsage` equal to
`KeyEncipherment | DigitalSignature` (the value 5) whatever the config.  For the config
built by `SignCloudCoreCert` the template (if the run gets to build one; otherwise the run
ends with an error) has `CommonName` "EdgeWize", `Organization` ["EdgeWize"], `ExtKeyUsage`
[ServerAuth], no DNS names, and as only IP entry the value of `net.ParseIP` on the host
address. -/
theorem NewCertFromCa_template_fields (env : Env) (cfg : Config) (caCert : Certificate)
    (serverKey : PublicKey) (caKey : Signer) (v : Int) (cacrt cakey : Bytes) (n : Nat)
    (hcn : ¬ cfg.CommonName.length = 0) (hu : ¬ cfg.Usages.length = 0)
    (hdraw : (randInt env.randReader MaxInt64).1 = .returned (.ok n)) :
    (∃ tmpl,
      (NewCertFromCa env cfg caCert serverKey caKey v []).trace =
        (randInt env.randReader MaxInt64).2 ++ [Event.timeNow, Event.timeNow,
          Event.CreateCertificate tmpl caCert serverKey caKey] ∧
      signedTemplates (NewCertFromCa env cfg caCert serverKey caKey v []).trace = [tmpl] ∧
      tmpl.Subject.CommonName = cfg.CommonName ∧
      tmpl.Subject.Organization = cfg.Organization ∧
      tmpl.DNSNames = cfg.AltNames.DNSNames ∧
      tmpl.IPAddresses = cfg.AltNames.IPs ∧
      tmpl.ExtKeyUsage = cfg.Usages ∧
      tmpl.SerialNumber = n ∧
      tmpl.KeyUsage = (KeyUsageKeyEncipherment ||| KeyUsageDigitalSignature) ∧
      tmpl.KeyUsage = 5) ∧
    ((signedTemplates (SignCloudCoreCert env cacrt cakey).trace = [] ∧
        ∃ e, (SignCloudCoreCert env cacrt cakey).out = .returned (none, none, some e)) ∨
     (∃ podIP tmpl, env.GetLocalIP env.GetHostname = .ok podIP ∧
        signedTemplates (SignCloudCoreCert env cacrt cakey).trace = [tmpl] ∧
        tmpl.Subject.CommonName = "EdgeWize" ∧
        tmpl.Subject.Organization = ["EdgeWize"] ∧
        tmpl.ExtKeyUsage = [ExtKeyUsage.ExtKeyUsageServerAuth] ∧
        tmpl.DNSNames = [] ∧
        tmpl.IPAddresses = [env.ParseIP podIP] ∧
        tmpl.KeyUsage = 5)) := by
  constructor
  · rcases NewCertFromCa_templates env cfg caCert serverKey caKey v with
      h0 | ⟨s, _, h2, _, _, htr, ht⟩
    · exfalso
      rw [NewCertFromCa_drawOk _ _ _ _ _ _ _ _ hdraw,
        certFromSerial_valid _ _ _ _ _ _ _ _ hcn hu] at h0
      revert h0
      split <;>
        simp [signedTemplates_append, signedTemplates_randInt, signedTemplates]
    · rw [hdraw] at h2
      cases h2
      exact ⟨_, htr, ht, rfl, rfl, rfl, rfl, rfl, rfl, rfl, rfl⟩
  · rcases SignCloudCoreCert_templates env cacrt cakey with h | ⟨podIP, m, h1, _, _, h⟩
    · exact Or.inl h
    · exact Or.inr ⟨podIP, _, h1, h, rfl, rfl, rfl, rfl, rfl, rfl⟩

theorem NewCertFromCa_template_fields_witness :
    ∃ tmpl,
      (NewCertFromCa
          (sampleEnv "10.0.0.5" (some [10, 0, 0, 5]) SignatureAlgorithm.ECDSAWithSHA256
            ⟨bigEndian8 5, SourceError.EOF⟩ 100 105)
          (cloudCoreConfig (some [10, 0, 0, 5]))
          ⟨SignatureAlgorithm.ECDSAWithSHA256, [1]⟩ (PublicKey.ecdsa Curve.P256 [4, 1])
          (Signer.ecdsa ⟨Curve.P256, [4, 2], [2]⟩) 36500 []).trace =
        (randInt (sampleEnv "10.0.0.5" (some [10, 0, 0, 5]) SignatureAlgorithm.ECDSAWithSHA256
          ⟨bigEndian8 5, SourceError.EOF⟩ 100 105).randReader MaxInt64).2 ++ [Event.timeNow, Event.timeNow,
          Event.CreateCertificate tmpl ⟨SignatureAlgorithm.ECDSAWithSHA256, [1]⟩
            (PublicKey.ecdsa Curve.P256 [4, 1]) (Signer.ecdsa ⟨Curve.P256, [4, 2], [2]⟩)] ∧
      tmpl.Subject.CommonName = "EdgeWize" ∧ tmpl.SerialNumber = 5 := by
  obtain ⟨tmpl, htr, _, hcn, _, _, _, _, hs, _, _⟩ :=
    (NewCertFromCa_template_fields
      (sampleEnv "10.0.0.5" (some [10, 0, 0, 5]) SignatureAlgorithm.ECDSAWithSHA256
        ⟨bigEndian8 5, SourceError.EOF⟩ 100 105)
      (cloudCoreConfig (some [10, 0, 0, 5]))
      ⟨SignatureAlgorithm.ECDSAWithSHA256, [1]⟩ (PublicKey.ecdsa Curve.P256 [4, 1])
      (Signer.ecdsa ⟨Curve.P256, [4, 2], [2]⟩) 36500 [1] [2] 5
      (by decide) (by decide) (by rfl)).1
  exact ⟨tmpl, htr, hcn, hs⟩

/-- C8, as stated, fails: with a host-discovery result "not-an-ip", for which `net.ParseIP`
gives nil, and all other library calls succeeding, `SignCloudCoreCert` returns a
certificate and a key with a nil error, and the template it had signed has the single nil
entry as IP SAN list. -/
theorem nil_address_accepted_counterexample :
    (SignCloudCoreCert
        (sampleEnv "not-an-ip" none SignatureAlgorithm.ECDSAWithSHA256
          ⟨bigEndian8 5, SourceError.EOF⟩ 100 105) [1] [2]).out =
      .returned (some [48, 5], some [48, 7], none) ∧
    (signedTemplates (SignCloudCoreCert
        (sampleEnv "not-an-ip" none SignatureAlgorithm.ECDSAWithSHA256
          ⟨bigEndian8 5, SourceError.EOF⟩ 100 105) [1] [2]).trace).map
      CertTemplate.IPAddresses = [[none]] ∧
    (keyEvents (SignCloudCoreCert
        (sampleEnv "not-an-ip" none SignatureAlgorithm.ECDSAWithSHA256
          ⟨bigEndian8 5, SourceError.EOF⟩ 100 105) [1] [2]).trace) =
      [Event.ecdsaGenerateKey Curve.P256, Event.ParseECPrivateKey [2],
        Event.MarshalECPrivateKey ⟨Curve.P256, [4, 1], [7]⟩] := by
  refine ⟨by rfl, by rfl, by rfl⟩

/-- C8, amended: a string returned by host discovery without error for which `net.ParseIP`
gives nil is not treated as a resolution failure.  `SignCloudCoreCert` goes on with the nil
address as the single entry of the IP SAN list: when the remaining library calls of the run
succeed (the parse of the CA certificate, the generation of the key, the parse of the CA
key, the encoding of the key, the draw of a serial number `n`, and the signing of the
template of that run) it returns `(certDER, keyDER, nil)` with the outputs of the signing
and of the key encoding, and the one template it handed to the signer has the IP SAN list
`[nil]`. -/
theorem SignCloudCoreCert_malformed_ip (env : Env) (cacrt cakey : Bytes) (podIP : String)
    (caCert : Certificate) (n : Nat) (certDER keyDER : Bytes)
    (h1 : env.GetLocalIP env.GetHostname = .ok podIP)
    (hip : env.ParseIP podIP = none)
    (h2 : env.ParseCertificate cacrt = .ok caCert)
    (hdraw : (randInt env.randReader MaxInt64).1 = .returned (.ok n))
    (hkey : (caCert.SignatureAlgorithm = SignatureAlgorithm.ECDSAWithSHA256 ∧
              ∃ sk ck, env.ecdsaGenerateKey Curve.P256 = .ok sk ∧
                env.ParseECPrivateKey cakey = .ok ck ∧
                env.MarshalECPrivateKey sk = .ok keyDER ∧
                env.CreateCertificate (certTemplate env (cloudCoreConfig none) (365 * 100) n)
                  caCert (Signer.ecdsa sk).Public (Signer.ecdsa ck) = .ok certDER) ∨
            (caCert.SignatureAlgorithm = SignatureAlgorithm.SHA256WithRSA ∧
              ∃ sk ck, env.rsaGenerateKey 2048 = .ok sk ∧
                env.ParsePKCS1PrivateKey cakey = .ok ck ∧
                env.MarshalPKCS1PrivateKey sk = keyDER ∧
                env.CreateCertificate (certTemplate env (cloudCoreConfig none) (365 * 100) n)
                  caCert (Signer.rsa sk).Public (Signer.rsa ck) = .ok certDER)) :
    (SignCloudCoreCert env cacrt cakey).out = .returned (some certDER, some keyDER, none) ∧
    signedTemplates (SignCloudCoreCert env cacrt cakey).trace =
      [certTemplate env (cloudCoreConfig none) (365 * 100) n] ∧
    (certTemplate env (cloudCoreConfig none) (365 * 100) n).IPAddresses = [none] := by
  have hfin : ∀ (serverKey caKey : Signer) (tr : List Event),
      signedTemplates tr = [] →
      env.CreateCertificate (certTemplate env (cloudCoreConfig none) (365 * 100) n)
        caCert serverKey.Public caKey = .ok certDER →
      (signWith env (cloudCoreConfig none) caCert serverKey caKey (some keyDER)
          tr).out = .returned (some certDER, some keyDER, none) ∧
        signedTemplates (signWith env (cloudCoreConfig none) caCert serverKey
          caKey (some keyDER) tr).trace =
            [certTemplate env (cloudCoreConfig none) (365 * 100) n] := by
    intro serverKey caKey tr htr hc
    refine signWith_cases env none caCert serverKey caKey (some keyDER) tr
      (fun res => res.out = .returned (some certDER, some keyDER, none) ∧
        signedTemplates res.trace = [certTemplate env (cloudCoreConfig none) (365 * 100) n])
      ?_ ?_ ?_
    · intro h; rw [hdraw] at h; cases h
    · intro m e _ hm hc2
      rw [hdraw] at hm; cases hm
      rw [hc] at hc2; cases hc2
    · intro m c _ hm hc2
      rw [hdraw] at hm; cases hm
      rw [hc] at hc2; cases hc2
      refine ⟨rfl, ?_⟩
      simp only [signedTemplates_append, signedTemplates_randInt, htr, signedTemplates,
        List.nil_append, List.append_nil]
  rcases hkey with ⟨ha, sk, ck, hg, hp, hm, hc⟩ | ⟨ha, sk, ck, hg, hp, hm, hc⟩
  · rw [SignCloudCoreCert_ecdsa env cacrt cakey podIP caCert sk ck keyDER h1 h2 ha hg hp hm,
      hip]
    obtain ⟨ho, ht⟩ := hfin (Signer.ecdsa sk) (Signer.ecdsa ck)
      [Event.GetLocalIP env.GetHostname, Event.ParseIP podIP, Event.ParseCertificate cacrt,
        Event.ecdsaGenerateKey Curve.P256, Event.ParseECPrivateKey cakey,
        Event.MarshalECPrivateKey sk] rfl hc
    exact ⟨ho, ht, rfl⟩
  · rw [SignCloudCoreCert_rsa env cacrt cakey podIP caCert sk ck h1 h2 ha hg hp, hip, hm]
    obtain ⟨ho, ht⟩ := hfin (Signer.rsa sk) (Signer.rsa ck)
      [Event.GetLocalIP env.GetHostname, Event.ParseIP podIP, Event.ParseCertificate cacrt,
        Event.rsaGenerateKey 2048, Event.ParsePKCS1PrivateKey cakey,
        Event.MarshalPKCS1PrivateKey sk] rfl hc
    exact ⟨ho, ht, rfl⟩

theorem SignCloudCoreCert_malformed_ip_witness :
    (SignCloudCoreCert (sampleEnv "not-an-ip" none SignatureAlgorithm.SHA256WithRSA
        ⟨bigEndian8 5, SourceError.EOF⟩ 100 105) [1] [2]).out =
      .returned (some [48, 5], some [49, 9], none) :=
  (SignCloudCoreCert_malformed_ip
    (sampleEnv "not-an-ip" none SignatureAlgorithm.SHA256WithRSA
      ⟨bigEndian8 5, SourceError.EOF⟩ 100 105)
    [1] [2] "not-an-ip" ⟨SignatureAlgorithm.SHA256WithRSA, [1]⟩ 5 [48, 5] [49, 9]
    rfl rfl rfl (by rfl) (Or.inr ⟨rfl, _, _, rfl, rfl, rfl, rfl⟩)).1

/-- C9: the signature algorithm of the CA certificate alone decides the kind of key and the
formats, so the two type assertions of `SignCloudCoreCert` never fail.  `NewPrivateKey`
succeeds only for `ECDSAWithSHA256`, with an ECDSA key from `ecdsa.GenerateKey` on P-256, and
for `SHA256WithRSA`, with an RSA key from `rsa.GenerateKey` for 2048 bits.  Every run of
`SignCloudCoreCert` returns (no panic).  When the CA certificate parses, the key events of
the run are, for `ECDSAWithSHA256`, an initial part of: generation of an ECDSA P-256 key,
SEC1 parse of the CA key, SEC1 encoding of the generated key; and for `SHA256WithRSA`, an
initial part of: generation of a 2048-bit RSA key, PKCS#1 parse of the CA key, PKCS#1
encoding of the generated key. -/
theorem SignCloudCoreCert_key_kind (env : Env) (cacrt cakey : Bytes) (caCert : Certificate)
    (alg : SignatureAlgorithm) (tr : List Event)
    (h2 : env.ParseCertificate cacrt = .ok caCert) :
    ((NewPrivateKey env alg tr).err = none →
      (alg = SignatureAlgorithm.ECDSAWithSHA256 ∧ ∃ k, env.ecdsaGenerateKey Curve.P256 = .ok k ∧
        NewPrivateKey env alg tr =
          ⟨some (Signer.ecdsa k), none, tr ++ [Event.ecdsaGenerateKey Curve.P256]⟩) ∨
      (alg = SignatureAlgorithm.SHA256WithRSA ∧ ∃ k, env.rsaGenerateKey 2048 = .ok k ∧
        NewPrivateKey env alg tr =
          ⟨some (Signer.rsa k), none, tr ++ [Event.rsaGenerateKey 2048]⟩)) ∧
    (SignCloudCoreCert env cacrt cakey).out.isReturned = true ∧
    (caCert.SignatureAlgorithm = SignatureAlgorithm.ECDSAWithSHA256 →
      keyEvents (SignCloudCoreCert env cacrt cakey).trace = [] ∨
      keyEvents (SignCloudCoreCert env cacrt cakey).trace = [Event.ecdsaGenerateKey Curve.P256] ∨
      keyEvents (SignCloudCoreCert env cacrt cakey).trace =
        [Event.ecdsaGenerateKey Curve.P256, Event.ParseECPrivateKey cakey] ∨
      ∃ sk, env.ecdsaGenerateKey Curve.P256 = .ok sk ∧
        keyEvents (SignCloudCoreCert env cacrt cakey).trace =
          [Event.ecdsaGenerateKey Curve.P256, Event.ParseECPrivateKey cakey,
            Event.MarshalECPrivateKey sk]) ∧
    (caCert.SignatureAlgorithm = SignatureAlgorithm.SHA256WithRSA →
      keyEvents (SignCloudCoreCert env cacrt cakey).trace = [] ∨
      keyEvents (SignCloudCoreCert env cacrt cakey).trace = [Event.rsaGenerateKey 2048] ∨
      keyEvents (SignCloudCoreCert env cacrt cakey).trace =
        [Event.rsaGenerateKey 2048, Event.ParsePKCS1PrivateKey cakey] ∨
      ∃ sk, env.rsaGenerateKey 2048 = .ok sk ∧
        keyEvents (SignCloudCoreCert env cacrt cakey).trace =
          [Event.rsaGenerateKey 2048, Event.ParsePKCS1PrivateKey cakey,
            Event.MarshalPKCS1PrivateKey sk]) := by
  refine ⟨?_, ?_⟩
  · intro herr
    by_cases ha : alg = SignatureAlgorithm.ECDSAWithSHA256
    · subst ha
      cases hg : env.ecdsaGenerateKey Curve.P256 with
      | error e => simp [NewPrivateKey, hg] at herr
      | ok k => exact Or.inl ⟨rfl, k, rfl, by simp [NewPrivateKey, hg]⟩
    · by_cases hb : alg = SignatureAlgorithm.SHA256WithRSA
      · subst hb
        cases hg : env.rsaGenerateKey 2048 with
        | error e => simp [NewPrivateKey, hg] at herr
        | ok k => exact Or.inr ⟨rfl, k, rfl, by simp [NewPrivateKey, hg]⟩
      · rw [NewPrivateKey_unsupported env alg tr ha hb] at herr
        simp at herr
  · refine SignCloudCoreCert_cases env cacrt cakey
      (fun res => res.out.isReturned = true ∧
        (caCert.SignatureAlgorithm = SignatureAlgorithm.ECDSAWithSHA256 →
          keyEvents res.trace = [] ∨
          keyEvents res.trace = [Event.ecdsaGenerateKey Curve.P256] ∨
          keyEvents res.trace =
            [Event.ecdsaGenerateKey Curve.P256, Event.ParseECPrivateKey cakey] ∨
          ∃ sk, env.ecdsaGenerateKey Curve.P256 = .ok sk ∧
            keyEvents res.trace =
              [Event.ecdsaGenerateKey Curve.P256, Event.ParseECPrivateKey cakey,
                Event.MarshalECPrivateKey sk]) ∧
        (caCert.SignatureAlgorithm = SignatureAlgorithm.SHA256WithRSA →
          keyEvents res.trace = [] ∨
          keyEvents res.trace = [Event.rsaGenerateKey 2048] ∨
          keyEvents res.trace =
            [Event.rsaGenerateKey 2048, Event.ParsePKCS1PrivateKey cakey] ∨
          ∃ sk, env.rsaGenerateKey 2048 = .ok sk ∧
            keyEvents res.trace =
              [Event.rsaGenerateKey 2048, Event.ParsePKCS1PrivateKey cakey,
                Event.MarshalPKCS1PrivateKey sk]))
      ?_ ?_ ?_ ?_ ?_ ?_ ?_ ?_ ?_ ?_ ?_ ?_ ?_ ?_
    · intro e _
      exact ⟨rfl, fun _ => Or.inl rfl, fun _ => Or.inl rfl⟩
    · intro podIP e _ _
      exact ⟨rfl, fun _ => Or.inl rfl, fun _ => Or.inl rfl⟩
    · intro podIP caCert2 _ _ _ _
      exact ⟨rfl, fun _ => Or.inl rfl, fun _ => Or.inl rfl⟩
    · intro podIP caCert2 e _ h2b ha _
      rw [h2] at h2b; cases h2b
      exact ⟨rfl, fun _ => Or.inr (Or.inl rfl), fun hb => absurd (ha.symm.trans hb) (by decide)⟩
    · intro podIP caCert2 e _ h2b ha _
      rw [h2] at h2b; cases h2b
      exact ⟨rfl, fun hb => absurd (ha.symm.trans hb) (by decide), fun _ => Or.inr (Or.inl rfl)⟩
    · intro podIP caCert2 sk e _ h2b ha _ _
      rw [h2] at h2b; cases h2b
      exact ⟨rfl, fun _ => Or.inr (Or.inr (Or.inl rfl)), fun hb => absurd (ha.symm.trans hb) (by decide)⟩
    · intro podIP caCert2 sk e _ h2b ha _ _
      rw [h2] at h2b; cases h2b
      exact ⟨rfl, fun hb => absurd (ha.symm.trans hb) (by decide), fun _ => Or.inr (Or.inr (Or.inl rfl))⟩
    · intro podIP caCert2 sk ck e _ h2b ha hg _ _
      rw [h2] at h2b; cases h2b
      exact ⟨rfl, fun _ => Or.inr (Or.inr (Or.inr ⟨sk, hg, rfl⟩)),
        fun hb => absurd (ha.symm.trans hb) (by decide)⟩
    · intro podIP caCert2 sk ck keyDER _ h2b ha hg _ _ _
      rw [h2] at h2b; cases h2b
      exact ⟨rfl, fun _ => Or.inr (Or.inr (Or.inr ⟨sk, hg, by
          simp only [keyEvents_append, keyEvents_randInt, List.append_nil]; rfl⟩)),
        fun hb => absurd (ha.symm.trans hb) (by decide)⟩
    · intro podIP caCert2 sk ck keyDER n e _ h2b ha hg _ _ _ _ _
      rw [h2] at h2b; cases h2b
      exact ⟨rfl, fun _ => Or.inr (Or.inr (Or.inr ⟨sk, hg, by
          simp only [keyEvents_append, keyEvents_randInt, List.append_nil]; rfl⟩)),
        fun hb => absurd (ha.symm.trans hb) (by decide)⟩
    · intro podIP caCert2 sk ck keyDER n c _ h2b ha hg _ _ _ _ _
      rw [h2] at h2b; cases h2b
      exact ⟨rfl, fun _ => Or.inr (Or.inr (Or.inr ⟨sk, hg, by
          simp only [keyEvents_append, keyEvents_randInt, List.append_nil]; rfl⟩)),
        fun hb => absurd (ha.symm.trans hb) (by decide)⟩
    · intro podIP caCert2 sk ck _ h2b ha hg _ _
      rw [h2] at h2b; cases h2b
      exact ⟨rfl, fun hb => absurd (ha.symm.trans hb) (by decide),
        fun _ => Or.inr (Or.inr (Or.inr ⟨sk, hg, by
          simp only [keyEvents_append, keyEvents_randInt, List.append_nil]; rfl⟩))⟩
    · intro podIP caCert2 sk ck n e _ h2b ha hg _ _ _ _
      rw [h2] at h2b; cases h2b
      exact ⟨rfl, fun hb => absurd (ha.symm.trans hb) (by decide),
        fun _ => Or.inr (Or.inr (Or.inr ⟨sk, hg, by
          simp only [keyEvents_append, keyEvents_randInt, List.append_nil]; rfl⟩))⟩
    · intro podIP caCert2 sk ck n c _ h2b ha hg _ _ _ _
      rw [h2] at h2b; cases h2b
      exact ⟨rfl, fun hb => absurd (ha.symm.trans hb) (by decide),
        fun _ => Or.inr (Or.inr (Or.inr ⟨sk, hg, by
          simp only [keyEvents_append, keyEvents_randInt, List.append_nil]; rfl⟩))⟩

theorem SignCloudCoreCert_key_kind_witness :
    (SignCloudCoreCert (sampleEnv "10.0.0.5" (some [10, 0, 0, 5])
      SignatureAlgorithm.ECDSAWithSHA256 ⟨bigEndian8 5, SourceError.EOF⟩ 100 105) [1] [2]).out.isReturned =
      true :=
  (SignCloudCoreCert_key_kind
    (sampleEnv "10.0.0.5" (some [10, 0, 0, 5]) SignatureAlgorithm.ECDSAWithSHA256
      ⟨bigEndian8 5, SourceError.EOF⟩ 100 105)
    [1] [2] ⟨SignatureAlgorithm.ECDSAWithSHA256, [1]⟩ SignatureAlgorithm.ECDSAWithSHA256 []
    rfl).2.1

/-- C10: the validity offset `time.Hour * 24 * validalityPeriod`, computed on `int64`
nanoseconds with `validalityPeriod` a day count `d`, equals `d * 86,400,000,000,000`
without wrap-around for every `0 <= d <= 106751`, and so `NotAfter` is the second clock
reading plus that many nanoseconds; for `d = 36500` it is 3,153,600,000,000,000,000, below
`2^63`.  For `d = 106752` the product exceeds `2^63 - 1` and wraps modulo `2^64` to the
negative duration -9,223,371,273,709,551,616 ns: `NotAfter` is that much before the second
clock reading, hence before `NotBefore` for any two clock readings less than that (about
292 years) apart. -/
theorem validity_offset_range (env : Env) (cfg : Config) (n : Nat) (d : Int)
    (h0 : 0 ≤ d) (h1 : d ≤ 106751) :
    mulInt64 (Hour * 24) d = d * 86400000000000 ∧
    (certTemplate env cfg d n).NotAfter = env.now 1 + d * 86400000000000 ∧
    mulInt64 (Hour * 24) 36500 = 3153600000000000000 ∧
    (3153600000000000000 : Int) < 2 ^ 63 ∧
    (106752 : Int) * 86400000000000 > 2 ^ 63 - 1 ∧
    mulInt64 (Hour * 24) 106752 = 106752 * 86400000000000 - 2 ^ 64 ∧
    mulInt64 (Hour * 24) 106752 < 0 ∧
    (certTemplate env cfg 106752 n).NotAfter = env.now 1 - 9223371273709551616 ∧
    (env.now 1 < env.now 0 + 9223371273709551616 →
      (certTemplate env cfg 106752 n).NotAfter < (certTemplate env cfg 106752 n).NotBefore) := by
  have hd : mulInt64 (Hour * 24) d = d * 86400000000000 := by
    unfold mulInt64 wrapInt64 Hour
    omega
  have hw : mulInt64 (Hour * 24) 106752 = -9223371273709551616 := by decide
  refine ⟨hd, ?_, by decide, by norm_num, by norm_num, ?_, ?_, ?_, ?_⟩
  · show TimeAdd (env.now 1) (mulInt64 (Hour * 24) d) = _
    rw [hd]; rfl
  · rw [hw]; norm_num
  · rw [hw]; norm_num
  · show TimeAdd (env.now 1) (mulInt64 (Hour * 24) 106752) = _
    rw [hw]; unfold TimeAdd; omega
  · intro hclock
    show TimeAdd (env.now 1) (mulInt64 (Hour * 24) 106752) < env.now 0
    rw [hw]; unfold TimeAdd; omega

theorem validity_offset_range_witness :
    mulInt64 (Hour * 24) 106751 = 106751 * 86400000000000 ∧
    (certTemplate (sampleEnv "10.0.0.5" (some [10, 0, 0, 5]) SignatureAlgorithm.ECDSAWithSHA256
        ⟨bigEndian8 5, SourceError.EOF⟩ 100 105) (cloudCoreConfig (some [10, 0, 0, 5])) 106752 5).NotAfter <
      (certTemplate (sampleEnv "10.0.0.5" (some [10, 0, 0, 5]) SignatureAlgorithm.ECDSAWithSHA256
        ⟨bigEndian8 5, SourceError.EOF⟩ 100 105) (cloudCoreConfig (some [10, 0, 0, 5])) 106752 5).NotBefore :=
  ⟨(validity_offset_range
      (sampleEnv "10.0.0.5" (some [10, 0, 0, 5]) SignatureAlgorithm.ECDSAWithSHA256
        ⟨bigEndian8 5, SourceError.EOF⟩ 100 105)
      (cloudCoreConfig (some [10, 0, 0, 5])) 5 106751 (by decide) (by decide)).1,
   (validity_offset_range
      (sampleEnv "10.0.0.5" (some [10, 0, 0, 5]) SignatureAlgorithm.ECDSAWithSHA256
        ⟨bigEndian8 5, SourceError.EOF⟩ 100 105)
      (cloudCoreConfig (some [10, 0, 0, 5])) 5 106751 (by decide) (by decide)).2.2.2.2.2.2.2.2
      (by decide)⟩

end Cloudstream
